import Mathlib

/-!
# Two-channel DC motor control with limit switches

A shallow embedding of the firmware in
`examples/Two-channel-DC-motor-control-with-limit-switches/src` (`defines.h`, `main.cpp`),
the polarity-aware variant, and of the functions `readJumpers`, `serialPrinting`,
`readEndSwitches`, `stopCover`, `openCover`, `closeCover` and the relay statements of `setup`
of the older variant `SW/Two-channel-DC-motor-control-with-limit-switches/src/main.cpp`
(namespace `SW`).

Conventions of the embedding.

* The global variables of the program and the levels of its output pins are the fields of
  `State`; every function of the program is a function `State → State`.
* An array of `NUMBER_OF_CHANNELS = 2` elements indexed by a `MOTOR_CHANNEL` is a
  `ChannelArray`.
* A logic level is a `Bool`: `HIGH = true`, `LOW = false`.  `digitalRead` is a lookup in the
  levels `pins : InputPin → Bool` present on the input pins; one call of `readJumpers` or
  `readEndSwitches` sees one such assignment of levels. `readEndSwitchesWith` and `loopWith`
  give each call of `digitalRead` in `readEndSwitches` its own level, for levels that change
  between two reads.
* A relay (`SimpleRelay`, a library class) is the `Bool` telling whether it is switched on:
  `relay->on()` stores `true`, `relay->off()` stores `false`. In `State` the four relays are
  those `setup` of the polarity-aware variant binds to `relay1` .. `relay4`; the pointers
  themselves, and the table `coverRelays` of the older variant, are in `RelayMemory` and
  `SW.RelayMemory`.
* The serial port is the list of the lines printed so far.
-/

namespace AMPTR

/-! ## Types of `defines.h` -/

/-- The states of the state machine (`CoverState`). -/
inductive CoverState where
  | STOP
  | OPENING
  | CLOSING
  | OPEN
  | CLOSED
  | UNKNOWN
  deriving DecidableEq, Repr

/-- Motor channel: `CHANNEL_A = 0` for motor A (M1), `CHANNEL_B = 1` for motor B (M2). -/
inductive MOTOR_CHANNEL where
  | CHANNEL_A
  | CHANNEL_B
  deriving DecidableEq, Repr

/-- Index of a limit switch of a channel: `DIRECTION_UP = 0`, `DIRECTION_DOWN = 1`. -/
inductive MOTOR_DIRECTION where
  | DIRECTION_UP
  | DIRECTION_DOWN
  deriving DecidableEq, Repr

/-- An array `T x[NUMBER_OF_CHANNELS]`, element 0 for `CHANNEL_A`, element 1 for `CHANNEL_B`. -/
structure ChannelArray (α : Type) where
  elemA : α
  elemB : α
  deriving DecidableEq, Repr

/-- Array read `x[channel]`. -/
def ChannelArray.get {α : Type} (x : ChannelArray α) : MOTOR_CHANNEL → α
  | .CHANNEL_A => x.elemA
  | .CHANNEL_B => x.elemB

/-- Array write `x[channel] = v`. -/
def ChannelArray.set {α : Type} (x : ChannelArray α) (channel : MOTOR_CHANNEL) (v : α) :
    ChannelArray α :=
  match channel with
  | .CHANNEL_A => { x with elemA := v }
  | .CHANNEL_B => { x with elemB := v }

/-- The input pins read by `readJumpers` and `readEndSwitches`, by their macro names. -/
inductive InputPin where
  | JUMP_1
  | JUMP_2
  | JUMP_3
  | JUMP_4
  | PIN_ENDSW_S1_UP
  | PIN_ENDSW_S2_DOWN
  | PIN_ENDSW_S3_UP
  | PIN_ENDSW_S4_DOWN
  deriving DecidableEq, Repr

/-- The table `coverLimitSwitchPins[NUMBER_OF_CHANNELS][2]`. -/
def coverLimitSwitchPins : MOTOR_CHANNEL → MOTOR_DIRECTION → InputPin
  | .CHANNEL_A, .DIRECTION_UP => .PIN_ENDSW_S1_UP
  | .CHANNEL_A, .DIRECTION_DOWN => .PIN_ENDSW_S2_DOWN
  | .CHANNEL_B, .DIRECTION_UP => .PIN_ENDSW_S3_UP
  | .CHANNEL_B, .DIRECTION_DOWN => .PIN_ENDSW_S4_DOWN

/-- The Arduino call `digitalRead(pin)`: the level present on the pin. -/
def digitalRead (pins : InputPin → Bool) (pin : InputPin) : Bool :=
  pins pin

/-- The identifiers the three buttons are constructed with (their pin macros). -/
inductive ButtonId where
  | PIN_BUTTON_STOP
  | PIN_BUTTON_OPEN
  | PIN_BUTTON_CLOSE
  deriving DecidableEq, Repr

/-- The three `jsc::DigitalButton` members of `CoverButtons`; they are the only buttons
whose listener is the `CoverButtons` object, so the only ones its handlers receive. -/
inductive Button where
  | buttonS5Up
  | buttonS6Down
  | buttonS7Stop
  deriving DecidableEq, Repr

/-- The call `button.getId()`: the identifier given to the constructor of the button. -/
def Button.getId : Button → ButtonId
  | .buttonS5Up => .PIN_BUTTON_OPEN
  | .buttonS6Down => .PIN_BUTTON_CLOSE
  | .buttonS7Stop => .PIN_BUTTON_STOP

/-- The global variables of the program, the relays and the output pins. -/
structure State where
  indicatorState : ChannelArray Bool
  holdButtonUp : Bool
  holdButtonDown : Bool
  useNCLimitSW : ChannelArray Bool
  relay1 : Bool
  relay2 : Bool
  relay3 : Bool
  relay4 : Bool
  coverState : ChannelArray CoverState
  lastGateState : ChannelArray CoverState
  coverIndicatorPins : ChannelArray Bool
  LED_BUILTIN : Bool
  Serial : List String
  deriving DecidableEq, Repr

/-! ## Button handlers (`defines.h`)

`CoverButtons::onPress` and `CoverButtons::onRelease` read and write the array `coverState`
and read the two hold flags only; their text is the same in `SW/.../main.cpp`. -/

/-- The handler `CoverButtons::onPress`, on the array `coverState`. -/
def onPress (button : Button) (coverState : ChannelArray CoverState) :
    ChannelArray CoverState :=
  match button.getId with
  | .PIN_BUTTON_OPEN =>
    let coverState := coverState.set .CHANNEL_A .OPENING
    coverState.set .CHANNEL_B .OPENING
  | .PIN_BUTTON_CLOSE =>
    let coverState := coverState.set .CHANNEL_A .CLOSING
    coverState.set .CHANNEL_B .CLOSING
  | .PIN_BUTTON_STOP =>
    let coverState :=
      if coverState.get .CHANNEL_A ≠ .UNKNOWN then coverState.set .CHANNEL_A .STOP
      else coverState
    if coverState.get .CHANNEL_B ≠ .UNKNOWN then coverState.set .CHANNEL_B .STOP
    else coverState

/-- The handler `CoverButtons::onRelease`, on the array `coverState`; the `switch` has no
case for the Stop button. -/
def onRelease (holdButtonUp holdButtonDown : Bool) (button : Button)
    (coverState : ChannelArray CoverState) : ChannelArray CoverState :=
  match button.getId with
  | .PIN_BUTTON_OPEN =>
    if holdButtonUp then
      let coverState := coverState.set .CHANNEL_A .STOP
      coverState.set .CHANNEL_B .STOP
    else coverState
  | .PIN_BUTTON_CLOSE =>
    if holdButtonDown then
      let coverState := coverState.set .CHANNEL_A .STOP
      coverState.set .CHANNEL_B .STOP
    else coverState
  | .PIN_BUTTON_STOP => coverState

/-- The handler `onPress` as a step of the program. -/
def State.onPress (button : Button) (s : State) : State :=
  { s with coverState := AMPTR.onPress button s.coverState }

/-- The handler `onRelease` as a step of the program; it reads the hold flags. -/
def State.onRelease (button : Button) (s : State) : State :=
  { s with coverState := AMPTR.onRelease s.holdButtonUp s.holdButtonDown button s.coverState }

/-! ## `main.cpp` of the polarity-aware variant -/

/-- The interrupt handler `ISR(TIMER1_COMPA_vect)`. -/
def ISR (s : State) : State :=
  let s := { s with indicatorState :=
    s.indicatorState.set .CHANNEL_A (!s.indicatorState.get .CHANNEL_A) }
  let s := { s with indicatorState :=
    s.indicatorState.set .CHANNEL_B (!s.indicatorState.get .CHANNEL_B) }
  { s with LED_BUILTIN := !s.LED_BUILTIN }

/-- The function `readJumpers`. -/
def readJumpers (pins : InputPin → Bool) (s : State) : State :=
  let s := if digitalRead pins .JUMP_1 then { s with useNCLimitSW := s.useNCLimitSW.set .CHANNEL_A true }
    else { s with useNCLimitSW := s.useNCLimitSW.set .CHANNEL_A false }
  let s := if digitalRead pins .JUMP_2 then { s with useNCLimitSW := s.useNCLimitSW.set .CHANNEL_B true }
    else { s with useNCLimitSW := s.useNCLimitSW.set .CHANNEL_B false }
  let s := if digitalRead pins .JUMP_3 then { s with holdButtonUp := true }
    else { s with holdButtonUp := false }
  if digitalRead pins .JUMP_4 then { s with holdButtonDown := true }
  else { s with holdButtonDown := false }

/-- The function `stopCover`. -/
def stopCover (channel : MOTOR_CHANNEL) (s : State) : State :=
  if channel = .CHANNEL_A then { s with relay1 := false, relay2 := false }
  else { s with relay3 := false, relay4 := false }

/-- The function `openCover`. -/
def openCover (channel : MOTOR_CHANNEL) (s : State) : State :=
  if channel = .CHANNEL_A then { s with relay1 := true, relay2 := false }
  else { s with relay3 := true, relay4 := false }

/-- The function `closeCover`. -/
def closeCover (channel : MOTOR_CHANNEL) (s : State) : State :=
  if channel = .CHANNEL_A then { s with relay1 := false, relay2 := true }
  else { s with relay3 := false, relay4 := true }

/-- The Arduino call `digitalWrite(coverIndicatorPins[channel], level)`. -/
def digitalWriteIndicator (channel : MOTOR_CHANNEL) (level : Bool) (s : State) : State :=
  { s with coverIndicatorPins := s.coverIndicatorPins.set channel level }

/-- The function `readEndSwitches`. -/
def readEndSwitches (pins : InputPin → Bool) (channel : MOTOR_CHANNEL) (s : State) : State :=
  if digitalRead pins (coverLimitSwitchPins channel .DIRECTION_UP) = s.useNCLimitSW.get channel ∧
      digitalRead pins (coverLimitSwitchPins channel .DIRECTION_DOWN) = s.useNCLimitSW.get channel
  then
    let s := stopCover channel s
    { s with coverState := s.coverState.set channel .UNKNOWN }
  else
    let s :=
      if digitalRead pins (coverLimitSwitchPins channel .DIRECTION_UP) = s.useNCLimitSW.get channel ∧
          s.coverState.get channel ≠ .CLOSING ∧ s.coverState.get channel ≠ .OPEN
      then { s with coverState := s.coverState.set channel .OPEN }
      else s
    let s :=
      if digitalRead pins (coverLimitSwitchPins channel .DIRECTION_DOWN) = s.useNCLimitSW.get channel ∧
          s.coverState.get channel ≠ .OPENING ∧ s.coverState.get channel ≠ .CLOSED
      then { s with coverState := s.coverState.set channel .CLOSED }
      else s
    let s :=
      if digitalRead pins (coverLimitSwitchPins channel .DIRECTION_UP) ≠ s.useNCLimitSW.get channel ∧
          s.coverState.get channel = .OPEN
      then { s with coverState := s.coverState.set channel .UNKNOWN }
      else s
    if digitalRead pins (coverLimitSwitchPins channel .DIRECTION_DOWN) ≠ s.useNCLimitSW.get channel ∧
        s.coverState.get channel = .CLOSED
    then { s with coverState := s.coverState.set channel .UNKNOWN }
    else s

/-- The function `stateMachine`. -/
def stateMachine (channel : MOTOR_CHANNEL) (s : State) : State :=
  match s.coverState.get channel with
  | .STOP => stopCover channel s
  | .OPENING =>
    let s := openCover channel s
    if s.indicatorState.get channel = false then digitalWriteIndicator channel false s
    else digitalWriteIndicator channel true s
  | .OPEN =>
    let s := stopCover channel s
    digitalWriteIndicator channel false s
  | .CLOSING =>
    let s := closeCover channel s
    if s.indicatorState.get channel = false then digitalWriteIndicator channel false s
    else digitalWriteIndicator channel true s
  | .CLOSED =>
    let s := stopCover channel s
    digitalWriteIndicator channel false s
  | .UNKNOWN =>
    if (!s.indicatorState.get channel) = true then digitalWriteIndicator channel false s
    else digitalWriteIndicator channel true s

/-- The name printed by `serialPrinting` for a state. -/
def stateName : CoverState → String
  | .STOP => "STOP"
  | .OPENING => "OPENING"
  | .OPEN => "OPEN"
  | .CLOSING => "CLOSING"
  | .CLOSED => "CLOSED"
  | .UNKNOWN => "UNKNOWN"

/-- The number `Serial.print(channel)` prints for a channel. -/
def channelDigits : MOTOR_CHANNEL → String
  | .CHANNEL_A => "0"
  | .CHANNEL_B => "1"

/-- The function `serialPrinting`: three `Serial.print` calls and one `Serial.println`
make one line. -/
def serialPrinting (channel : MOTOR_CHANNEL) (s : State) : State :=
  if s.coverState.get channel ≠ s.lastGateState.get channel then
    let s := { s with lastGateState := s.lastGateState.set channel (s.coverState.get channel) }
    { s with Serial :=
        s.Serial ++ ["Channel " ++ channelDigits channel ++ ": " ++ stateName (s.coverState.get channel)] }
  else s

/-- The state `setup()` leaves: indicator pins `LOW`, both channels `UNKNOWN`,
`lastGateState` equal to `coverState`, the four relays created and switched off, the four
lines of the banner printed; `indicatorState`, the hold flags and `useNCLimitSW` have their
static initial values. -/
def setup : State :=
  { indicatorState := ⟨false, false⟩
    holdButtonUp := false
    holdButtonDown := false
    useNCLimitSW := ⟨false, false⟩
    relay1 := false
    relay2 := false
    relay3 := false
    relay4 := false
    coverState := ⟨.UNKNOWN, .UNKNOWN⟩
    lastGateState := ⟨.UNKNOWN, .UNKNOWN⟩
    coverIndicatorPins := ⟨false, false⟩
    LED_BUILTIN := false
    Serial := ["JSC electronics", "DC motor control", "Version: 1.0", ""] }

/-- An event a button reports to its listener. -/
inductive ButtonEvent where
  | press (button : Button)
  | release (button : Button)
  deriving DecidableEq, Repr

/-- The listener call made for an event. -/
def ButtonEvent.deliver : ButtonEvent → State → State
  | .press button, s => s.onPress button
  | .release button, s => s.onRelease button

/-- The call `coverButtons->update()`: the three buttons are ticked and the button library
(`ObjectButton`, not part of the repository) calls the handlers for the events it detects.
The events delivered during the call, in their order, are the parameter `events`. -/
def update (events : List ButtonEvent) (s : State) : State :=
  events.foldl (fun s event => event.deliver s) s

/-- The timer interrupt served, or not, between two calls of `loop`. -/
def interrupt (fires : Bool) (s : State) : State :=
  if fires then ISR s else s

/-- What one pass of `loop()` receives from outside: the levels on the input pins, the
button events delivered by `update`, and for each of the eight calls of `loop` (numbered
from 0) whether the timer interrupt is served just before it. The interrupt handler writes
`indicatorState` and `LED_BUILTIN` only, and of the functions of the loop `stateMachine`
alone reads them. -/
structure LoopInput where
  pins : InputPin → Bool
  events : List ButtonEvent
  timer : Nat → Bool

/-- The function `loop`: one poll cycle. -/
def loop (i : LoopInput) (s : State) : State :=
  let s := readJumpers i.pins (interrupt (i.timer 0) s)
  let s := update i.events (interrupt (i.timer 1) s)
  let s := readEndSwitches i.pins .CHANNEL_A (interrupt (i.timer 2) s)
  let s := stateMachine .CHANNEL_A (interrupt (i.timer 3) s)
  let s := readEndSwitches i.pins .CHANNEL_B (interrupt (i.timer 4) s)
  let s := stateMachine .CHANNEL_B (interrupt (i.timer 5) s)
  let s := serialPrinting .CHANNEL_A (interrupt (i.timer 6) s)
  serialPrinting .CHANNEL_B (interrupt (i.timer 7) s)

/-- The poll cycles of a list run one after the other. -/
def run (cycles : List LoopInput) (s : State) : State :=
  cycles.foldl (fun s i => loop i s) s

/-- The levels returned by the six calls of `digitalRead` in one call of `readEndSwitches`,
in the order of the text: the two of the first `if` (up, down), then one for each of the
four following `if`s (up, down, up, down). -/
structure SwitchReads where
  up1 : Bool
  down1 : Bool
  up2 : Bool
  down3 : Bool
  up4 : Bool
  down5 : Bool
  deriving DecidableEq, Repr

/-- The reads of a call during which the levels on the two pins of the channel do not
change. -/
def SwitchReads.steady (pins : InputPin → Bool) (channel : MOTOR_CHANNEL) : SwitchReads :=
  { up1 := digitalRead pins (coverLimitSwitchPins channel .DIRECTION_UP)
    down1 := digitalRead pins (coverLimitSwitchPins channel .DIRECTION_DOWN)
    up2 := digitalRead pins (coverLimitSwitchPins channel .DIRECTION_UP)
    down3 := digitalRead pins (coverLimitSwitchPins channel .DIRECTION_DOWN)
    up4 := digitalRead pins (coverLimitSwitchPins channel .DIRECTION_UP)
    down5 := digitalRead pins (coverLimitSwitchPins channel .DIRECTION_DOWN) }

/-- The function `readEndSwitches` with the level each of its calls of `digitalRead` returns
given one by one: the levels on the pins may change between two reads. -/
def readEndSwitchesWith (reads : SwitchReads) (channel : MOTOR_CHANNEL) (s : State) : State :=
  if reads.up1 = s.useNCLimitSW.get channel ∧ reads.down1 = s.useNCLimitSW.get channel
  then
    let s := stopCover channel s
    { s with coverState := s.coverState.set channel .UNKNOWN }
  else
    let s :=
      if reads.up2 = s.useNCLimitSW.get channel ∧
          s.coverState.get channel ≠ .CLOSING ∧ s.coverState.get channel ≠ .OPEN
      then { s with coverState := s.coverState.set channel .OPEN }
      else s
    let s :=
      if reads.down3 = s.useNCLimitSW.get channel ∧
          s.coverState.get channel ≠ .OPENING ∧ s.coverState.get channel ≠ .CLOSED
      then { s with coverState := s.coverState.set channel .CLOSED }
      else s
    let s :=
      if reads.up4 ≠ s.useNCLimitSW.get channel ∧ s.coverState.get channel = .OPEN
      then { s with coverState := s.coverState.set channel .UNKNOWN }
      else s
    if reads.down5 ≠ s.useNCLimitSW.get channel ∧ s.coverState.get channel = .CLOSED
    then { s with coverState := s.coverState.set channel .UNKNOWN }
    else s

/-- The function `loop` with the reads of its two calls of `readEndSwitches` given one by
one. -/
def loopWith (i : LoopInput) (readsA readsB : SwitchReads) (s : State) : State :=
  let s := readJumpers i.pins (interrupt (i.timer 0) s)
  let s := update i.events (interrupt (i.timer 1) s)
  let s := readEndSwitchesWith readsA .CHANNEL_A (interrupt (i.timer 2) s)
  let s := stateMachine .CHANNEL_A (interrupt (i.timer 3) s)
  let s := readEndSwitchesWith readsB .CHANNEL_B (interrupt (i.timer 4) s)
  let s := stateMachine .CHANNEL_B (interrupt (i.timer 5) s)
  let s := serialPrinting .CHANNEL_A (interrupt (i.timer 6) s)
  serialPrinting .CHANNEL_B (interrupt (i.timer 7) s)

/-- One operation of the running program, taken as a whole: the timer interrupt handler, a
function called by `loop`, or a listener call made from `update`. -/
inductive Step where
  | timerInterrupt
  | readJumpers (pins : InputPin → Bool)
  | onPress (button : Button)
  | onRelease (button : Button)
  | readEndSwitches (pins : InputPin → Bool) (channel : MOTOR_CHANNEL)
  | stateMachine (channel : MOTOR_CHANNEL)
  | serialPrinting (channel : MOTOR_CHANNEL)

/-- The effect of an operation on the program state. -/
def Step.apply : Step → State → State
  | .timerInterrupt, s => ISR s
  | .readJumpers pins, s => AMPTR.readJumpers pins s
  | .onPress button, s => State.onPress button s
  | .onRelease button, s => State.onRelease button s
  | .readEndSwitches pins channel, s => AMPTR.readEndSwitches pins channel s
  | .stateMachine channel, s => AMPTR.stateMachine channel s
  | .serialPrinting channel, s => AMPTR.serialPrinting channel s

/-- The operations of a list applied one after the other, in any order and number. -/
def exec (steps : List Step) (s : State) : State :=
  steps.foldl (fun s step => step.apply s) s

/-! ## Functions of the older variant `SW/.../main.cpp`

The variables these functions use (`holdButtonUp`, `holdButtonDown`, `coverState`,
`lastGateState`, the serial port) are declared in `SW/.../main.cpp` with the names and types
they have in `defines.h`; they are the fields of `State` of these names. -/

namespace SW

/-- The function `readJumpers` of `SW/.../main.cpp`. -/
def readJumpers (pins : InputPin → Bool) (s : State) : State :=
  let s := if (!digitalRead pins .JUMP_3) = true then { s with holdButtonUp := true }
    else { s with holdButtonUp := false }
  if (!digitalRead pins .JUMP_4) = true then { s with holdButtonDown := true }
  else { s with holdButtonDown := false }

/-- The function `serialPrinting` of `SW/.../main.cpp`; it stores `lastGateState[channel]`
after the `if`. -/
def serialPrinting (channel : MOTOR_CHANNEL) (s : State) : State :=
  let s :=
    if s.coverState.get channel ≠ s.lastGateState.get channel then
      { s with Serial :=
          s.Serial ++ ["Channel " ++ channelDigits channel ++ ": " ++ stateName (s.coverState.get channel)] }
    else s
  { s with lastGateState := s.lastGateState.set channel (s.coverState.get channel) }

end SW

/-! ## Derived notions used by the statements -/

/-- Relay A of a channel: `relay1` for channel A, `relay3` for channel B. -/
def State.relayA (s : State) : MOTOR_CHANNEL → Bool
  | .CHANNEL_A => s.relay1
  | .CHANNEL_B => s.relay3

/-- Relay B of a channel: `relay2` for channel A, `relay4` for channel B. -/
def State.relayB (s : State) : MOTOR_CHANNEL → Bool
  | .CHANNEL_A => s.relay2
  | .CHANNEL_B => s.relay4

/-- The top limit switch of the channel reads active: its level equals the polarity flag. -/
def topActive (pins : InputPin → Bool) (channel : MOTOR_CHANNEL) (s : State) : Bool :=
  digitalRead pins (coverLimitSwitchPins channel .DIRECTION_UP) == s.useNCLimitSW.get channel

/-- The bottom limit switch of the channel reads active: its level equals the polarity flag. -/
def bottomActive (pins : InputPin → Bool) (channel : MOTOR_CHANNEL) (s : State) : Bool :=
  digitalRead pins (coverLimitSwitchPins channel .DIRECTION_DOWN) == s.useNCLimitSW.get channel

/-- The transition rules of the specification for the limit-switch conditions, in their
order of precedence, the first matching rule deciding: (1) both switches active;
(2) top active, state not `CLOSING` and not `OPEN`; (3) bottom active, state not `OPENING`
and not `CLOSED`; (4) top inactive in `OPEN`; (5) bottom inactive in `CLOSED`. -/
def firstMatchRule (top bottom : Bool) (state : CoverState) : CoverState :=
  if top = true ∧ bottom = true then .UNKNOWN
  else if top = true ∧ state ≠ .CLOSING ∧ state ≠ .OPEN then .OPEN
  else if bottom = true ∧ state ≠ .OPENING ∧ state ≠ .CLOSED then .CLOSED
  else if top = false ∧ state = .OPEN then .UNKNOWN
  else if bottom = false ∧ state = .CLOSED then .UNKNOWN
  else state

/-- The statements of `readEndSwitches` as a function of the levels read, the polarity flag
and the state of the channel: the value `coverState[channel]` ends with. -/
def endSwitchState (up down nc : Bool) (state : CoverState) : CoverState :=
  if up = nc ∧ down = nc then .UNKNOWN
  else
    let state := if up = nc ∧ state ≠ .CLOSING ∧ state ≠ .OPEN then .OPEN else state
    let state := if down = nc ∧ state ≠ .OPENING ∧ state ≠ .CLOSED then .CLOSED else state
    let state := if up ≠ nc ∧ state = .OPEN then .UNKNOWN else state
    if down ≠ nc ∧ state = .CLOSED then .UNKNOWN else state

/-- What the program keeps for one channel: its state, its two relays and the level of
its indicator pin. -/
structure ChannelView where
  coverState : CoverState
  relayA : Bool
  relayB : Bool
  indicator : Bool
  deriving DecidableEq, Repr

/-- The view of a channel in a program state. -/
def State.view (s : State) (channel : MOTOR_CHANNEL) : ChannelView :=
  { coverState := s.coverState.get channel
    relayA := s.relayA channel
    relayB := s.relayB channel
    indicator := s.coverIndicatorPins.get channel }

/-- The effect of `readEndSwitches(channel)` on the view of the channel. -/
def endSwitchView (up down nc : Bool) (v : ChannelView) : ChannelView :=
  if up = nc ∧ down = nc then
    { coverState := .UNKNOWN, relayA := false, relayB := false, indicator := v.indicator }
  else { v with coverState := endSwitchState up down nc v.coverState }

/-- The effect of `stateMachine(channel)` on the view of the channel, `blink` being
`indicatorState[channel]`. -/
def stateMachineView (blink : Bool) (v : ChannelView) : ChannelView :=
  match v.coverState with
  | .STOP => { v with relayA := false, relayB := false }
  | .OPENING => { v with relayA := true, relayB := false, indicator := blink }
  | .OPEN => { v with relayA := false, relayB := false, indicator := false }
  | .CLOSING => { v with relayA := false, relayB := true, indicator := blink }
  | .CLOSED => { v with relayA := false, relayB := false, indicator := false }
  | .UNKNOWN => { v with indicator := blink }

/-- The actuator table of the specification: the relays (A, B) that go with a state. -/
def actuatorTable : CoverState → Bool × Bool
  | .OPENING => (true, false)
  | .CLOSING => (false, true)
  | .STOP => (false, false)
  | .OPEN => (false, false)
  | .CLOSED => (false, false)
  | .UNKNOWN => (false, false)

/-- The relays of a channel are as the actuator table gives them for its state. -/
def ChannelView.relaysMatch (v : ChannelView) : Prop :=
  (v.relayA, v.relayB) = actuatorTable v.coverState

/-- How button events can move a state: not at all, or to a commanded state. -/
def commanded (before after : CoverState) : Prop :=
  after = before ∨ after = .OPENING ∨ after = .CLOSING ∨ after = .STOP

/-! ## Relay objects, relay handles and relay commands

`stopCover`, `openCover` and `closeCover` call `on()` and `off()` through pointers to
`SimpleRelay` objects. A call is a `RelayCommand`: the handle it goes through and whether
it switches on. What a handle points to is decided by the pointer variables of each variant,
which `setup` fills. -/

/-- The macro `PIN_RELAY_M1A`. -/
def PIN_RELAY_M1A : Nat := 3

/-- The macro `PIN_RELAY_M1B`. -/
def PIN_RELAY_M1B : Nat := 5

/-- The macro `PIN_RELAY_M2A`. -/
def PIN_RELAY_M2A : Nat := 10

/-- The macro `PIN_RELAY_M2B`. -/
def PIN_RELAY_M2B : Nat := 11

/-- A relay object made by `new SimpleRelay(pin, flag)`: the two constructor arguments and
whether the relay is switched on. -/
structure SimpleRelay where
  pin : Nat
  flag : Bool
  isOn : Bool
  deriving DecidableEq, Repr

/-- The expression `new SimpleRelay(pin, flag)`: the object is added to the objects created
so far and the pointer to it, its index, is returned. The state of a relay when it is
constructed is decided by the library and is the parameter `initial`. -/
def newSimpleRelay (pin : Nat) (flag initial : Bool) (objects : List SimpleRelay) :
    List SimpleRelay × Option Nat :=
  (objects ++ [{ pin := pin, flag := flag, isOn := initial }], some objects.length)

/-- The calls `p->on()` (`switchOn = true`) and `p->off()` (`switchOn = false`) through a pointer `p`.
A call through a null pointer, or through a pointer to no object, has no defined result. -/
def switchRelay (p : Option Nat) (switchOn : Bool) (objects : List SimpleRelay) :
    Option (List SimpleRelay) :=
  match p with
  | none => none
  | some k =>
    match objects[k]? with
    | none => none
    | some relay => some (objects.set k { relay with isOn := switchOn })

/-- The relay object a pointer points to, if any. -/
def relayAt (p : Option Nat) (objects : List SimpleRelay) : Option SimpleRelay :=
  match p with
  | none => none
  | some k => objects[k]?

/-- The handle of relay `index` (0 or 1) of a channel: `coverRelays[channel][index]` in
`SW/.../main.cpp`; in the polarity-aware variant `relay1` and `relay2` for channel A,
`relay3` and `relay4` for channel B. -/
structure RelayHandle where
  channel : MOTOR_CHANNEL
  index : Fin 2
  deriving DecidableEq, Repr

/-- A call of `on()` or `off()` through a relay handle. -/
structure RelayCommand where
  handle : RelayHandle
  switchOn : Bool
  deriving DecidableEq, Repr

/-- The pointer variables `relay1` .. `relay4` of the polarity-aware variant and the relay
objects created. -/
structure RelayMemory where
  objects : List SimpleRelay
  relay1 : Option Nat
  relay2 : Option Nat
  relay3 : Option Nat
  relay4 : Option Nat
  deriving DecidableEq, Repr

/-- The pointer a handle stands for in the polarity-aware variant. -/
def RelayMemory.pointer (m : RelayMemory) (handle : RelayHandle) : Option Nat :=
  match handle.channel, handle.index with
  | .CHANNEL_A, 0 => m.relay1
  | .CHANNEL_A, 1 => m.relay2
  | .CHANNEL_B, 0 => m.relay3
  | .CHANNEL_B, 1 => m.relay4

/-- A relay command carried out on the relay objects of the polarity-aware variant. -/
def RelayMemory.command (m : RelayMemory) (c : RelayCommand) : Option RelayMemory :=
  match switchRelay (m.pointer c.handle) c.switchOn m.objects with
  | none => none
  | some objects => some { m with objects := objects }

/-- The relay statements of `setup()` of the polarity-aware variant: the four pointer
variables, null until then, receive new relay objects, and each relay is switched off. -/
def setupRelays (initial : Bool) : Option RelayMemory :=
  let m : RelayMemory :=
    { objects := [], relay1 := none, relay2 := none, relay3 := none, relay4 := none }
  let created := newSimpleRelay PIN_RELAY_M1A false initial m.objects
  let m := { m with objects := created.1, relay1 := created.2 }
  let created := newSimpleRelay PIN_RELAY_M1B false initial m.objects
  let m := { m with objects := created.1, relay2 := created.2 }
  let created := newSimpleRelay PIN_RELAY_M2A false initial m.objects
  let m := { m with objects := created.1, relay3 := created.2 }
  let created := newSimpleRelay PIN_RELAY_M2B false initial m.objects
  let m := { m with objects := created.1, relay4 := created.2 }
  match switchRelay m.relay1 false m.objects with
  | none => none
  | some objects =>
    match switchRelay m.relay2 false objects with
    | none => none
    | some objects =>
      match switchRelay m.relay3 false objects with
      | none => none
      | some objects =>
        match switchRelay m.relay4 false objects with
        | none => none
        | some objects => some { m with objects := objects }

/-- The relay calls of `stopCover` of the polarity-aware variant. -/
def stopCoverCommands (channel : MOTOR_CHANNEL) : List RelayCommand :=
  if channel = .CHANNEL_A then
    [{ handle := ⟨.CHANNEL_A, 0⟩, switchOn := false }, { handle := ⟨.CHANNEL_A, 1⟩, switchOn := false }]
  else
    [{ handle := ⟨.CHANNEL_B, 0⟩, switchOn := false }, { handle := ⟨.CHANNEL_B, 1⟩, switchOn := false }]

/-- The relay calls of `openCover` of the polarity-aware variant. -/
def openCoverCommands (channel : MOTOR_CHANNEL) : List RelayCommand :=
  if channel = .CHANNEL_A then
    [{ handle := ⟨.CHANNEL_A, 0⟩, switchOn := true }, { handle := ⟨.CHANNEL_A, 1⟩, switchOn := false }]
  else
    [{ handle := ⟨.CHANNEL_B, 0⟩, switchOn := true }, { handle := ⟨.CHANNEL_B, 1⟩, switchOn := false }]

/-- The relay calls of `closeCover` of the polarity-aware variant. -/
def closeCoverCommands (channel : MOTOR_CHANNEL) : List RelayCommand :=
  if channel = .CHANNEL_A then
    [{ handle := ⟨.CHANNEL_A, 0⟩, switchOn := false }, { handle := ⟨.CHANNEL_A, 1⟩, switchOn := true }]
  else
    [{ handle := ⟨.CHANNEL_B, 0⟩, switchOn := false }, { handle := ⟨.CHANNEL_B, 1⟩, switchOn := true }]

/-- The relay calls `readEndSwitches` of the polarity-aware variant makes: those of
`stopCover(channel)` when both switches read active, none otherwise. -/
def readEndSwitchesCommands (pins : InputPin → Bool) (channel : MOTOR_CHANNEL) (s : State) :
    List RelayCommand :=
  if digitalRead pins (coverLimitSwitchPins channel .DIRECTION_UP) = s.useNCLimitSW.get channel ∧
      digitalRead pins (coverLimitSwitchPins channel .DIRECTION_DOWN) = s.useNCLimitSW.get channel
  then stopCoverCommands channel
  else []

/-- A relay command carried out on the relays of a program state, where each relay is
bound: `relay1`, `relay2` for channel A and `relay3`, `relay4` for channel B. -/
def State.command (s : State) (c : RelayCommand) : State :=
  match c.handle.channel, c.handle.index with
  | .CHANNEL_A, 0 => { s with relay1 := c.switchOn }
  | .CHANNEL_A, 1 => { s with relay2 := c.switchOn }
  | .CHANNEL_B, 0 => { s with relay3 := c.switchOn }
  | .CHANNEL_B, 1 => { s with relay4 := c.switchOn }

namespace SW

/-- The pointer variables `relay1` .. `relay4`, the table `coverRelays` and the relay
objects created, in `SW/.../main.cpp`. -/
structure RelayMemory where
  objects : List SimpleRelay
  relay1 : Option Nat
  relay2 : Option Nat
  relay3 : Option Nat
  relay4 : Option Nat
  coverRelays : ChannelArray (Option Nat × Option Nat)
  deriving DecidableEq, Repr

/-- The values of the variables when `setup` starts: `relay1` .. `relay4` have no
initialiser and are null; the initialiser `{{relay1, relay2},{relay3, relay4}}` of
`coverRelays` copies these values. -/
def staticInitialization : RelayMemory :=
  let relay1 : Option Nat := none
  let relay2 : Option Nat := none
  let relay3 : Option Nat := none
  let relay4 : Option Nat := none
  { objects := [], relay1 := relay1, relay2 := relay2, relay3 := relay3, relay4 := relay4
    coverRelays := ⟨(relay1, relay2), (relay3, relay4)⟩ }

/-- The four assignments under `// set relays instances` in `setup()`: they store into
`relay1`, `relay2`, `relay1`, `relay2`. -/
def setupCreateRelays (initial : Bool) (m : RelayMemory) : RelayMemory :=
  let created := newSimpleRelay PIN_RELAY_M1A true initial m.objects
  let m := { m with objects := created.1, relay1 := created.2 }
  let created := newSimpleRelay PIN_RELAY_M1B true initial m.objects
  let m := { m with objects := created.1, relay2 := created.2 }
  let created := newSimpleRelay PIN_RELAY_M2A true initial m.objects
  let m := { m with objects := created.1, relay1 := created.2 }
  let created := newSimpleRelay PIN_RELAY_M2B true initial m.objects
  { m with objects := created.1, relay2 := created.2 }

/-- The relay statements of `setup()`: the four assignments, then `relay1->off()`,
`relay2->off()`, `relay3->off()`, `relay4->off()`. -/
def setupRelays (initial : Bool) : Option RelayMemory :=
  let m := setupCreateRelays initial staticInitialization
  match switchRelay m.relay1 false m.objects with
  | none => none
  | some objects =>
    match switchRelay m.relay2 false objects with
    | none => none
    | some objects =>
      match switchRelay m.relay3 false objects with
      | none => none
      | some objects =>
        match switchRelay m.relay4 false objects with
        | none => none
        | some objects => some { m with objects := objects }

/-- The pointer `coverRelays[channel][index]` a handle stands for. -/
def RelayMemory.pointer (m : RelayMemory) (handle : RelayHandle) : Option Nat :=
  match handle.index with
  | 0 => (m.coverRelays.get handle.channel).1
  | 1 => (m.coverRelays.get handle.channel).2

/-- A relay command carried out on the relay objects. -/
def RelayMemory.command (m : RelayMemory) (c : RelayCommand) : Option RelayMemory :=
  match switchRelay (m.pointer c.handle) c.switchOn m.objects with
  | none => none
  | some objects => some { m with objects := objects }

/-- The function `stopCover` of `SW/.../main.cpp`: its two relay calls. -/
def stopCover (channel : MOTOR_CHANNEL) : List RelayCommand :=
  [{ handle := ⟨channel, 0⟩, switchOn := false }, { handle := ⟨channel, 1⟩, switchOn := false }]

/-- The function `openCover` of `SW/.../main.cpp`: its two relay calls. -/
def openCover (channel : MOTOR_CHANNEL) : List RelayCommand :=
  [{ handle := ⟨channel, 0⟩, switchOn := true }, { handle := ⟨channel, 1⟩, switchOn := false }]

/-- The function `closeCover` of `SW/.../main.cpp`: its two relay calls. -/
def closeCover (channel : MOTOR_CHANNEL) : List RelayCommand :=
  [{ handle := ⟨channel, 0⟩, switchOn := false }, { handle := ⟨channel, 1⟩, switchOn := true }]

/-- The function `readEndSwitches` of `SW/.../main.cpp`, on the array `coverState`: the
array it leaves and the relay calls it makes. -/
def readEndSwitches (pins : InputPin → Bool) (channel : MOTOR_CHANNEL)
    (coverState : ChannelArray CoverState) : ChannelArray CoverState × List RelayCommand :=
  if (!digitalRead pins (coverLimitSwitchPins channel .DIRECTION_UP)) = true ∧
      (!digitalRead pins (coverLimitSwitchPins channel .DIRECTION_DOWN)) = true
  then (coverState.set channel .UNKNOWN, stopCover channel)
  else
    let coverState :=
      if (!digitalRead pins (coverLimitSwitchPins channel .DIRECTION_UP)) = true ∧
          coverState.get channel ≠ .CLOSING ∧ coverState.get channel ≠ .OPEN
      then coverState.set channel .OPEN
      else coverState
    let coverState :=
      if (!digitalRead pins (coverLimitSwitchPins channel .DIRECTION_DOWN)) = true ∧
          coverState.get channel ≠ .OPENING ∧ coverState.get channel ≠ .CLOSED
      then coverState.set channel .CLOSED
      else coverState
    let coverState :=
      if digitalRead pins (coverLimitSwitchPins channel .DIRECTION_UP) = true ∧
          coverState.get channel = .OPEN
      then coverState.set channel .UNKNOWN
      else coverState
    let coverState :=
      if digitalRead pins (coverLimitSwitchPins channel .DIRECTION_DOWN) = true ∧
          coverState.get channel = .CLOSED
      then coverState.set channel .UNKNOWN
      else coverState
    (coverState, [])

end SW

/-! ## Concrete inputs used by the examples -/

/-- Input levels with the four jumpers at logic 0 (normally-open switches, push once to
move) and the four limit-switch pins `HIGH`, so that no limit switch reads active. -/
def pinsNoSwitchActive : InputPin → Bool
  | .JUMP_1 => false
  | .JUMP_2 => false
  | .JUMP_3 => false
  | .JUMP_4 => false
  | .PIN_ENDSW_S1_UP => true
  | .PIN_ENDSW_S2_DOWN => true
  | .PIN_ENDSW_S3_UP => true
  | .PIN_ENDSW_S4_DOWN => true

/-- Input levels with every pin `LOW`: jumpers at logic 0 and, the switches being
normally open, all four limit switches reading active. -/
def pinsAllLow : InputPin → Bool :=
  fun _ => false

/-- A state in which both covers are being opened: `OPENING`, relays A on. -/
def bothOpening : State :=
  { setup with coverState := ⟨.OPENING, .OPENING⟩, relay1 := true, relay3 := true }

/-- The state of `setup` with hold-to-move selected for both directions. -/
def setupHoldToMove : State :=
  { setup with holdButtonUp := true, holdButtonDown := true }

/-- A poll cycle in which Open is pressed, no limit switch reads active and the timer
interrupt is served once, before `stateMachine(CHANNEL_A)`. -/
def cycleOpenPressed : LoopInput :=
  { pins := pinsNoSwitchActive
    events := [.press .buttonS5Up]
    timer := fun k => k == 3 }

/-- A poll cycle in which Stop is pressed, no limit switch reads active and no timer
interrupt is served. -/
def cycleStopPressed : LoopInput :=
  { pins := pinsNoSwitchActive
    events := [.press .buttonS7Stop]
    timer := fun _ => false }

/-- A state in which channel A is in `STOP` while its indicator pin is still `HIGH`, as the
flashing of `OPENING` can leave it. -/
def stoppedIndicatorHigh : State :=
  { setup with coverState := ⟨.STOP, .STOP⟩, coverIndicatorPins := ⟨true, true⟩ }

/-- Input levels with the jumpers at logic 0 (normally-open switches) where only the bottom
switch of channel A reads active (`LOW`). -/
def pinsBottomActiveA : InputPin → Bool
  | .JUMP_1 => false
  | .JUMP_2 => false
  | .JUMP_3 => false
  | .JUMP_4 => false
  | .PIN_ENDSW_S1_UP => true
  | .PIN_ENDSW_S2_DOWN => false
  | .PIN_ENDSW_S3_UP => true
  | .PIN_ENDSW_S4_DOWN => true

/-- Input levels with the jumpers at logic 0 (normally-open switches) where only the top
switch of channel A reads active (`LOW`). -/
def pinsTopActiveA : InputPin → Bool
  | .JUMP_1 => false
  | .JUMP_2 => false
  | .JUMP_3 => false
  | .JUMP_4 => false
  | .PIN_ENDSW_S1_UP => false
  | .PIN_ENDSW_S2_DOWN => true
  | .PIN_ENDSW_S3_UP => true
  | .PIN_ENDSW_S4_DOWN => true

/-- Input levels where the jumpers `JUMP_3` and `JUMP_4` read logic 1 and every other pin
reads logic 0. -/
def pinsHoldJumpersHigh : InputPin → Bool
  | .JUMP_3 => true
  | .JUMP_4 => true
  | _ => false

/-- Channel A at rest in `CLOSED`. -/
def closedA : State :=
  { setup with coverState := ⟨.CLOSED, .UNKNOWN⟩, lastGateState := ⟨.CLOSED, .UNKNOWN⟩ }

/-- Channel A at rest in `OPEN`. -/
def openA : State :=
  { setup with coverState := ⟨.OPEN, .UNKNOWN⟩, lastGateState := ⟨.OPEN, .UNKNOWN⟩ }

/-- Input levels with `JUMP_3` and `JUMP_4` at logic 1 (hold to move), `JUMP_1` and
`JUMP_2` at logic 0 (normally-open switches) and no limit switch active. -/
def pinsHoldNoSwitchActive : InputPin → Bool
  | .JUMP_1 => false
  | .JUMP_2 => false
  | .JUMP_3 => true
  | .JUMP_4 => true
  | .PIN_ENDSW_S1_UP => true
  | .PIN_ENDSW_S2_DOWN => true
  | .PIN_ENDSW_S3_UP => true
  | .PIN_ENDSW_S4_DOWN => true

/-- The levels of `pinsHoldNoSwitchActive` with the top switch of channel A active. -/
def pinsHoldTopActiveA : InputPin → Bool
  | .JUMP_1 => false
  | .JUMP_2 => false
  | .JUMP_3 => true
  | .JUMP_4 => true
  | .PIN_ENDSW_S1_UP => false
  | .PIN_ENDSW_S2_DOWN => true
  | .PIN_ENDSW_S3_UP => true
  | .PIN_ENDSW_S4_DOWN => true

/-- Three poll cycles in hold-to-move mode: Open is pressed and held; channel A reaches its
top switch; the top switch of channel A reads inactive again. -/
def cyclesHoldOpenThenLost : List LoopInput :=
  [{ pins := pinsHoldNoSwitchActive, events := [.press .buttonS5Up], timer := fun _ => false },
   { pins := pinsHoldTopActiveA, events := [], timer := fun _ => false },
   { pins := pinsHoldNoSwitchActive, events := [], timer := fun _ => false }]

/-- A poll cycle in hold-to-move mode in which the held Open button is released. -/
def cycleHoldOpenReleased : LoopInput :=
  { pins := pinsHoldNoSwitchActive, events := [.release .buttonS5Up], timer := fun _ => false }

/-- A poll cycle in hold-to-move mode in which Stop is pressed. -/
def cycleHoldStopPressed : LoopInput :=
  { pins := pinsHoldNoSwitchActive, events := [.press .buttonS7Stop], timer := fun _ => false }

/-- A poll cycle with no button event, no timer interrupt, jumpers at logic 0 and no limit
switch active. -/
def cycleIdle : LoopInput :=
  { pins := pinsNoSwitchActive, events := [], timer := fun _ => false }

/-- Reads of one call of `readEndSwitches` for normally-open switches during which the top
switch opens again: it reads active (`LOW`) in the first and second `if` and inactive
(`HIGH`) in the fourth; the bottom switch reads inactive throughout. -/
def readsTopSwitchReleased : SwitchReads :=
  { up1 := false, down1 := true, up2 := false, down3 := true, up4 := true, down5 := true }

/-! ## Lemmas on the effect of each function -/

theorem ChannelArray.get_set_self {α : Type} (x : ChannelArray α) (channel : MOTOR_CHANNEL)
    (v : α) : (x.set channel v).get channel = v := by
  cases channel <;> rfl

theorem ChannelArray.get_set_other {α : Type} (x : ChannelArray α)
    (channel ch : MOTOR_CHANNEL) (v : α) (h : ch ≠ channel) :
    (x.set channel v).get ch = x.get ch := by
  cases channel <;> cases ch <;> first | rfl | exact absurd rfl h

theorem readEndSwitches_coverState_self (pins : InputPin → Bool) (channel : MOTOR_CHANNEL)
    (s : State) :
    (readEndSwitches pins channel s).coverState.get channel
      = endSwitchState (digitalRead pins (coverLimitSwitchPins channel .DIRECTION_UP))
          (digitalRead pins (coverLimitSwitchPins channel .DIRECTION_DOWN))
          (s.useNCLimitSW.get channel) (s.coverState.get channel) := by
  unfold readEndSwitches endSwitchState
  generalize digitalRead pins (coverLimitSwitchPins channel .DIRECTION_UP) = u
  generalize digitalRead pins (coverLimitSwitchPins channel .DIRECTION_DOWN) = d
  obtain ⟨ind, hu, hd, ⟨ncA, ncB⟩, r1, r2, r3, r4, ⟨cA, cB⟩, last, ip, led, ser⟩ := s
  cases channel <;> simp only [ChannelArray.get, ChannelArray.set, stopCover] <;>
    split_ifs <;> simp_all

theorem readEndSwitches_view_self (pins : InputPin → Bool) (channel : MOTOR_CHANNEL)
    (s : State) :
    (readEndSwitches pins channel s).view channel
      = endSwitchView (digitalRead pins (coverLimitSwitchPins channel .DIRECTION_UP))
          (digitalRead pins (coverLimitSwitchPins channel .DIRECTION_DOWN))
          (s.useNCLimitSW.get channel) (s.view channel) := by
  unfold readEndSwitches
  generalize digitalRead pins (coverLimitSwitchPins channel .DIRECTION_UP) = u
  generalize digitalRead pins (coverLimitSwitchPins channel .DIRECTION_DOWN) = d
  obtain ⟨ind, hu, hd, ⟨ncA, ncB⟩, r1, r2, r3, r4, ⟨cA, cB⟩, last, ⟨ipA, ipB⟩, led, ser⟩ := s
  cases channel
  · cases u <;> cases d <;> cases ncA <;> cases cA <;> rfl
  · cases u <;> cases d <;> cases ncB <;> cases cB <;> rfl

theorem readEndSwitches_view_other (pins : InputPin → Bool) (channel ch : MOTOR_CHANNEL)
    (s : State) (h : ch ≠ channel) :
    (readEndSwitches pins channel s).view ch = s.view ch := by
  unfold readEndSwitches
  generalize digitalRead pins (coverLimitSwitchPins channel .DIRECTION_UP) = u
  generalize digitalRead pins (coverLimitSwitchPins channel .DIRECTION_DOWN) = d
  obtain ⟨ind, hu, hd, ⟨ncA, ncB⟩, r1, r2, r3, r4, ⟨cA, cB⟩, last, ⟨ipA, ipB⟩, led, ser⟩ := s
  cases channel <;> cases ch
  · exact absurd rfl h
  · cases u <;> cases d <;> cases ncA <;> cases cA <;> rfl
  · cases u <;> cases d <;> cases ncB <;> cases cB <;> rfl
  · exact absurd rfl h

theorem stateMachine_view_self (channel : MOTOR_CHANNEL) (s : State) :
    (stateMachine channel s).view channel
      = stateMachineView (s.indicatorState.get channel) (s.view channel) := by
  unfold State.view stateMachineView stateMachine
  obtain ⟨⟨bA, bB⟩, hu, hd, nc, r1, r2, r3, r4, ⟨cA, cB⟩, last, ⟨ipA, ipB⟩, led, ser⟩ := s
  cases channel
  · cases cA <;> cases bA <;>
      simp [ChannelArray.get, ChannelArray.set, stopCover, openCover, closeCover,
        digitalWriteIndicator, State.relayA, State.relayB]
  · cases cB <;> cases bB <;>
      simp [ChannelArray.get, ChannelArray.set, stopCover, openCover, closeCover,
        digitalWriteIndicator, State.relayA, State.relayB]

theorem stateMachine_view_other (channel ch : MOTOR_CHANNEL) (s : State) (h : ch ≠ channel) :
    (stateMachine channel s).view ch = s.view ch := by
  unfold State.view stateMachine
  obtain ⟨⟨bA, bB⟩, hu, hd, nc, r1, r2, r3, r4, ⟨cA, cB⟩, last, ⟨ipA, ipB⟩, led, ser⟩ := s
  cases channel <;> cases ch
  · exact absurd rfl h
  · cases cA <;> cases bA <;>
      simp [ChannelArray.get, ChannelArray.set, stopCover, openCover, closeCover,
        digitalWriteIndicator, State.relayA, State.relayB]
  · cases cB <;> cases bB <;>
      simp [ChannelArray.get, ChannelArray.set, stopCover, openCover, closeCover,
        digitalWriteIndicator, State.relayA, State.relayB]
  · exact absurd rfl h

theorem readEndSwitches_coverState (pins : InputPin → Bool) (channel ch : MOTOR_CHANNEL)
    (s : State) :
    (readEndSwitches pins channel s).coverState.get ch
      = if ch = channel then
          endSwitchState (digitalRead pins (coverLimitSwitchPins channel .DIRECTION_UP))
            (digitalRead pins (coverLimitSwitchPins channel .DIRECTION_DOWN))
            (s.useNCLimitSW.get channel) (s.coverState.get channel)
        else s.coverState.get ch := by
  by_cases h : ch = channel
  · subst h
    rw [if_pos rfl]
    exact readEndSwitches_coverState_self pins ch s
  · rw [if_neg h]
    exact congrArg ChannelView.coverState (readEndSwitches_view_other pins channel ch s h)

theorem readEndSwitches_indicatorState (pins : InputPin → Bool) (channel : MOTOR_CHANNEL)
    (s : State) :
    (readEndSwitches pins channel s).indicatorState = s.indicatorState := by
  unfold readEndSwitches
  generalize digitalRead pins (coverLimitSwitchPins channel .DIRECTION_UP) = u
  generalize digitalRead pins (coverLimitSwitchPins channel .DIRECTION_DOWN) = d
  obtain ⟨ind, hu, hd, ⟨ncA, ncB⟩, r1, r2, r3, r4, ⟨cA, cB⟩, last, ⟨ipA, ipB⟩, led, ser⟩ := s
  cases channel
  · cases u <;> cases d <;> cases ncA <;> cases cA <;> rfl
  · cases u <;> cases d <;> cases ncB <;> cases cB <;> rfl

theorem onPress_get (button : Button) (coverState : ChannelArray CoverState)
    (ch : MOTOR_CHANNEL) :
    (onPress button coverState).get ch = coverState.get ch ∨
      ((onPress button coverState).get ch ≠ .OPEN ∧
        (onPress button coverState).get ch ≠ .CLOSED) := by
  obtain ⟨cA, cB⟩ := coverState
  cases button <;> cases ch <;> cases cA <;> cases cB <;> decide

theorem onRelease_get (holdButtonUp holdButtonDown : Bool) (button : Button)
    (coverState : ChannelArray CoverState) (ch : MOTOR_CHANNEL) :
    (onRelease holdButtonUp holdButtonDown button coverState).get ch = coverState.get ch ∨
      ((onRelease holdButtonUp holdButtonDown button coverState).get ch ≠ .OPEN ∧
        (onRelease holdButtonUp holdButtonDown button coverState).get ch ≠ .CLOSED) := by
  obtain ⟨cA, cB⟩ := coverState
  cases button <;> cases ch <;> cases cA <;> cases cB <;>
    cases holdButtonUp <;> cases holdButtonDown <;> decide

theorem onPress_stop_get (coverState : ChannelArray CoverState) (ch : MOTOR_CHANNEL) :
    (onPress .buttonS7Stop coverState).get ch
      = if coverState.get ch = .UNKNOWN then .UNKNOWN else .STOP := by
  obtain ⟨cA, cB⟩ := coverState
  cases ch <;> cases cA <;> cases cB <;> decide

theorem interrupt_view (fires : Bool) (s : State) (ch : MOTOR_CHANNEL) :
    (interrupt fires s).view ch = s.view ch := by
  cases fires <;> cases ch <;> rfl

theorem readJumpers_view (pins : InputPin → Bool) (s : State) (ch : MOTOR_CHANNEL) :
    (readJumpers pins s).view ch = s.view ch := by
  unfold readJumpers
  generalize digitalRead pins .JUMP_1 = j1
  generalize digitalRead pins .JUMP_2 = j2
  generalize digitalRead pins .JUMP_3 = j3
  generalize digitalRead pins .JUMP_4 = j4
  cases j1 <;> cases j2 <;> cases j3 <;> cases j4 <;> cases ch <;> rfl

theorem serialPrinting_view (channel ch : MOTOR_CHANNEL) (s : State) :
    (serialPrinting channel s).view ch = s.view ch := by
  unfold serialPrinting
  split_ifs <;> cases ch <;> rfl

theorem commanded_trans {a b c : CoverState} (hab : commanded a b) (hbc : commanded b c) :
    commanded a c := by
  unfold commanded at *
  rcases hbc with h | h | h | h
  · rw [h]; exact hab
  · exact Or.inr (Or.inl h)
  · exact Or.inr (Or.inr (Or.inl h))
  · exact Or.inr (Or.inr (Or.inr h))

theorem onPress_commanded (button : Button) (coverState : ChannelArray CoverState)
    (ch : MOTOR_CHANNEL) :
    commanded (coverState.get ch) ((onPress button coverState).get ch) := by
  obtain ⟨cA, cB⟩ := coverState
  unfold commanded
  cases button <;> cases ch <;> cases cA <;> cases cB <;> decide

theorem onRelease_commanded (holdButtonUp holdButtonDown : Bool) (button : Button)
    (coverState : ChannelArray CoverState) (ch : MOTOR_CHANNEL) :
    commanded (coverState.get ch)
      ((onRelease holdButtonUp holdButtonDown button coverState).get ch) := by
  obtain ⟨cA, cB⟩ := coverState
  unfold commanded
  cases button <;> cases ch <;> cases cA <;> cases cB <;>
    cases holdButtonUp <;> cases holdButtonDown <;> decide

theorem deliver_view (event : ButtonEvent) (s : State) (ch : MOTOR_CHANNEL) :
    ∃ c, commanded (s.view ch).coverState c ∧
      (event.deliver s).view ch = { s.view ch with coverState := c } := by
  cases event with
  | press button =>
    exact ⟨(onPress button s.coverState).get ch, onPress_commanded button s.coverState ch,
      by cases ch <;> rfl⟩
  | release button =>
    exact ⟨(onRelease s.holdButtonUp s.holdButtonDown button s.coverState).get ch,
      onRelease_commanded s.holdButtonUp s.holdButtonDown button s.coverState ch,
      by cases ch <;> rfl⟩

theorem update_view (events : List ButtonEvent) (s : State) (ch : MOTOR_CHANNEL) :
    ∃ c, commanded (s.view ch).coverState c ∧
      (update events s).view ch = { s.view ch with coverState := c } := by
  induction events generalizing s with
  | nil => exact ⟨(s.view ch).coverState, Or.inl rfl, rfl⟩
  | cons event rest ih =>
    obtain ⟨c1, h1, e1⟩ := deliver_view event s ch
    obtain ⟨c2, h2, e2⟩ := ih (event.deliver s)
    rw [e1] at h2 e2
    exact ⟨c2, commanded_trans h1 h2, e2⟩

theorem loop_view (i : LoopInput) (s : State) (ch : MOTOR_CHANNEL) :
    ∃ c nc blink, commanded (s.view ch).coverState c ∧
      (loop i s).view ch
        = stateMachineView blink
            (endSwitchView (i.pins (coverLimitSwitchPins ch .DIRECTION_UP))
              (i.pins (coverLimitSwitchPins ch .DIRECTION_DOWN)) nc
              { s.view ch with coverState := c }) := by
  obtain ⟨c, hc, hupd⟩ := update_view i.events
    (interrupt (i.timer 1) (readJumpers i.pins (interrupt (i.timer 0) s))) ch
  have h0 : (interrupt (i.timer 1) (readJumpers i.pins (interrupt (i.timer 0) s))).view ch
      = s.view ch := by
    rw [interrupt_view, readJumpers_view, interrupt_view]
  rw [h0] at hc hupd
  cases ch
  · exact ⟨c, _, _, hc, by
      unfold loop
      simp only [serialPrinting_view, interrupt_view, stateMachine_view_other,
        readEndSwitches_view_other, stateMachine_view_self, readEndSwitches_view_self, hupd,
        ne_eq, reduceCtorEq, not_false_eq_true]
      rfl⟩
  · exact ⟨c, _, _, hc, by
      unfold loop
      simp only [serialPrinting_view, interrupt_view, stateMachine_view_other,
        readEndSwitches_view_other, stateMachine_view_self, readEndSwitches_view_self, hupd,
        ne_eq, reduceCtorEq, not_false_eq_true]
      rfl⟩

theorem cycle_relaysMatch (up down nc blink : Bool) (v : ChannelView) (c : CoverState)
    (hv : v.relaysMatch) (hc : commanded v.coverState c) :
    (stateMachineView blink (endSwitchView up down nc { v with coverState := c })).relaysMatch := by
  obtain ⟨c0, ra, rb, ip⟩ := v
  cases c0 <;> cases c <;> cases up <;> cases down <;> cases nc <;>
    simp_all [ChannelView.relaysMatch, commanded, stateMachineView, endSwitchView,
      endSwitchState, actuatorTable]

theorem loop_relaysMatch (i : LoopInput) (s : State) (ch : MOTOR_CHANNEL)
    (h : (s.view ch).relaysMatch) : ((loop i s).view ch).relaysMatch := by
  obtain ⟨c, nc, blink, hc, hview⟩ := loop_view i s ch
  rw [hview]
  exact cycle_relaysMatch _ _ nc blink (s.view ch) c h hc

theorem run_relaysMatch (cycles : List LoopInput) (s : State) (ch : MOTOR_CHANNEL)
    (h : (s.view ch).relaysMatch) : ((run cycles s).view ch).relaysMatch := by
  induction cycles generalizing s with
  | nil => exact h
  | cons i rest ih => exact ih (loop i s) (loop_relaysMatch i s ch h)

theorem readEndSwitches_frame (pins : InputPin → Bool) (channel : MOTOR_CHANNEL)
    (s : State) :
    (readEndSwitches pins channel s).useNCLimitSW = s.useNCLimitSW ∧
    (readEndSwitches pins channel s).lastGateState = s.lastGateState ∧
    (readEndSwitches pins channel s).Serial = s.Serial := by
  unfold readEndSwitches
  generalize digitalRead pins (coverLimitSwitchPins channel .DIRECTION_UP) = u
  generalize digitalRead pins (coverLimitSwitchPins channel .DIRECTION_DOWN) = d
  obtain ⟨ind, hu, hd, ⟨ncA, ncB⟩, r1, r2, r3, r4, ⟨cA, cB⟩, last, ⟨ipA, ipB⟩, led, ser⟩ := s
  cases channel
  · cases u <;> cases d <;> cases ncA <;> cases cA <;> exact ⟨rfl, rfl, rfl⟩
  · cases u <;> cases d <;> cases ncB <;> cases cB <;> exact ⟨rfl, rfl, rfl⟩

theorem stateMachine_frame (channel : MOTOR_CHANNEL) (s : State) :
    (stateMachine channel s).indicatorState = s.indicatorState ∧
    (stateMachine channel s).coverState = s.coverState ∧
    (stateMachine channel s).useNCLimitSW = s.useNCLimitSW ∧
    (stateMachine channel s).lastGateState = s.lastGateState ∧
    (stateMachine channel s).Serial = s.Serial := by
  unfold stateMachine
  obtain ⟨⟨bA, bB⟩, hu, hd, nc, r1, r2, r3, r4, ⟨cA, cB⟩, last, ⟨ipA, ipB⟩, led, ser⟩ := s
  cases channel
  · cases cA <;> cases bA <;> exact ⟨rfl, rfl, rfl, rfl, rfl⟩
  · cases cB <;> cases bB <;> exact ⟨rfl, rfl, rfl, rfl, rfl⟩

theorem readJumpers_frame (pins : InputPin → Bool) (s : State) :
    (readJumpers pins s).indicatorState = s.indicatorState ∧
    (readJumpers pins s).useNCLimitSW
      = ⟨digitalRead pins .JUMP_1, digitalRead pins .JUMP_2⟩ ∧
    (readJumpers pins s).holdButtonUp = digitalRead pins .JUMP_3 ∧
    (readJumpers pins s).holdButtonDown = digitalRead pins .JUMP_4 := by
  unfold readJumpers
  generalize digitalRead pins .JUMP_1 = j1
  generalize digitalRead pins .JUMP_2 = j2
  generalize digitalRead pins .JUMP_3 = j3
  generalize digitalRead pins .JUMP_4 = j4
  cases j1 <;> cases j2 <;> cases j3 <;> cases j4 <;> exact ⟨rfl, rfl, rfl, rfl⟩

theorem serialPrinting_frame (channel : MOTOR_CHANNEL) (s : State) :
    (serialPrinting channel s).indicatorState = s.indicatorState ∧
    (serialPrinting channel s).coverState = s.coverState := by
  unfold serialPrinting
  split_ifs <;> exact ⟨rfl, rfl⟩

theorem ISR_indicatorState (s : State) :
    (ISR s).indicatorState
      = ⟨!s.indicatorState.get .CHANNEL_A, !s.indicatorState.get .CHANNEL_B⟩ :=
  rfl

theorem interrupt_frame (fires : Bool) (s : State) :
    (interrupt fires s).useNCLimitSW = s.useNCLimitSW ∧
    (interrupt fires s).coverState = s.coverState ∧
    (interrupt fires s).holdButtonUp = s.holdButtonUp ∧
    (interrupt fires s).holdButtonDown = s.holdButtonDown := by
  cases fires <;> exact ⟨rfl, rfl, rfl, rfl⟩

/-- The interrupt handler keeps the blink phases of the two channels equal. -/
theorem ISR_sync (s : State)
    (h : s.indicatorState.get .CHANNEL_A = s.indicatorState.get .CHANNEL_B) :
    (ISR s).indicatorState.get .CHANNEL_A = (ISR s).indicatorState.get .CHANNEL_B := by
  rw [ISR_indicatorState]
  show (!s.indicatorState.get .CHANNEL_A) = !s.indicatorState.get .CHANNEL_B
  rw [h]

theorem Step_apply_sync (step : Step) (s : State)
    (h : s.indicatorState.get .CHANNEL_A = s.indicatorState.get .CHANNEL_B) :
    (step.apply s).indicatorState.get .CHANNEL_A
      = (step.apply s).indicatorState.get .CHANNEL_B := by
  cases step with
  | timerInterrupt => exact ISR_sync s h
  | readJumpers pins =>
    show (readJumpers pins s).indicatorState.get _ = (readJumpers pins s).indicatorState.get _
    rw [(readJumpers_frame pins s).1]; exact h
  | onPress button => exact h
  | onRelease button => exact h
  | readEndSwitches pins channel =>
    show (readEndSwitches pins channel s).indicatorState.get _
      = (readEndSwitches pins channel s).indicatorState.get _
    rw [readEndSwitches_indicatorState]; exact h
  | stateMachine channel =>
    show (stateMachine channel s).indicatorState.get _
      = (stateMachine channel s).indicatorState.get _
    rw [(stateMachine_frame channel s).1]; exact h
  | serialPrinting channel =>
    show (serialPrinting channel s).indicatorState.get _
      = (serialPrinting channel s).indicatorState.get _
    rw [(serialPrinting_frame channel s).1]; exact h

theorem exec_sync (steps : List Step) (s : State)
    (h : s.indicatorState.get .CHANNEL_A = s.indicatorState.get .CHANNEL_B) :
    (exec steps s).indicatorState.get .CHANNEL_A
      = (exec steps s).indicatorState.get .CHANNEL_B := by
  induction steps generalizing s with
  | nil => exact h
  | cons step rest ih => exact ih (step.apply s) (Step_apply_sync step s h)

theorem interrupt_sync (fires : Bool) (s : State)
    (h : s.indicatorState.get .CHANNEL_A = s.indicatorState.get .CHANNEL_B) :
    (interrupt fires s).indicatorState.get .CHANNEL_A
      = (interrupt fires s).indicatorState.get .CHANNEL_B := by
  cases fires
  · exact h
  · exact ISR_sync s h

theorem update_sync (events : List ButtonEvent) (s : State)
    (h : s.indicatorState.get .CHANNEL_A = s.indicatorState.get .CHANNEL_B) :
    (update events s).indicatorState.get .CHANNEL_A
      = (update events s).indicatorState.get .CHANNEL_B := by
  induction events generalizing s with
  | nil => exact h
  | cons event rest ih =>
    cases event with
    | press button => exact ih (s.onPress button) h
    | release button => exact ih (s.onRelease button) h

theorem loop_sync (i : LoopInput) (s : State)
    (h : s.indicatorState.get .CHANNEL_A = s.indicatorState.get .CHANNEL_B) :
    (loop i s).indicatorState.get .CHANNEL_A = (loop i s).indicatorState.get .CHANNEL_B :=
  Step_apply_sync (.serialPrinting .CHANNEL_B) _ (interrupt_sync _ _
    (Step_apply_sync (.serialPrinting .CHANNEL_A) _ (interrupt_sync _ _
      (Step_apply_sync (.stateMachine .CHANNEL_B) _ (interrupt_sync _ _
        (Step_apply_sync (.readEndSwitches i.pins .CHANNEL_B) _ (interrupt_sync _ _
          (Step_apply_sync (.stateMachine .CHANNEL_A) _ (interrupt_sync _ _
            (Step_apply_sync (.readEndSwitches i.pins .CHANNEL_A) _ (interrupt_sync _ _
              (update_sync i.events _ (interrupt_sync _ _
                (Step_apply_sync (.readJumpers i.pins) _
                  (interrupt_sync _ _ h)))))))))))))))

theorem run_sync (cycles : List LoopInput) (s : State)
    (h : s.indicatorState.get .CHANNEL_A = s.indicatorState.get .CHANNEL_B) :
    (run cycles s).indicatorState.get .CHANNEL_A
      = (run cycles s).indicatorState.get .CHANNEL_B := by
  induction cycles generalizing s with
  | nil => exact h
  | cons i rest ih => exact ih (loop i s) (loop_sync i s h)

theorem update_frame (events : List ButtonEvent) (s : State) :
    (update events s).useNCLimitSW = s.useNCLimitSW ∧
    (update events s).indicatorState = s.indicatorState := by
  induction events generalizing s with
  | nil => exact ⟨rfl, rfl⟩
  | cons event rest ih =>
    cases event with
    | press button => exact ih (s.onPress button)
    | release button => exact ih (s.onRelease button)

theorem interrupt_useNCLimitSW (fires : Bool) (s : State) :
    (interrupt fires s).useNCLimitSW = s.useNCLimitSW :=
  (interrupt_frame fires s).1

theorem update_useNCLimitSW (events : List ButtonEvent) (s : State) :
    (update events s).useNCLimitSW = s.useNCLimitSW :=
  (update_frame events s).1

theorem readEndSwitches_useNCLimitSW (pins : InputPin → Bool) (channel : MOTOR_CHANNEL)
    (s : State) : (readEndSwitches pins channel s).useNCLimitSW = s.useNCLimitSW :=
  (readEndSwitches_frame pins channel s).1

theorem stateMachine_useNCLimitSW (channel : MOTOR_CHANNEL) (s : State) :
    (stateMachine channel s).useNCLimitSW = s.useNCLimitSW :=
  (stateMachine_frame channel s).2.2.1

theorem readJumpers_useNCLimitSW (pins : InputPin → Bool) (s : State) :
    (readJumpers pins s).useNCLimitSW
      = ⟨digitalRead pins .JUMP_1, digitalRead pins .JUMP_2⟩ :=
  (readJumpers_frame pins s).2.1

theorem stateMachine_indicatorState (channel : MOTOR_CHANNEL) (s : State) :
    (stateMachine channel s).indicatorState = s.indicatorState :=
  (stateMachine_frame channel s).1

theorem serialPrinting_indicatorState (channel : MOTOR_CHANNEL) (s : State) :
    (serialPrinting channel s).indicatorState = s.indicatorState :=
  (serialPrinting_frame channel s).1

theorem serialPrinting_coverIndicatorPins (channel ch : MOTOR_CHANNEL) (s : State) :
    (serialPrinting channel s).coverIndicatorPins.get ch = s.coverIndicatorPins.get ch :=
  congrArg ChannelView.indicator (serialPrinting_view channel ch s)

theorem loop_view_self (i : LoopInput) (s : State) (ch : MOTOR_CHANNEL) :
    ∃ blink, (loop i s).view ch
      = stateMachineView blink
          (endSwitchView (digitalRead i.pins (coverLimitSwitchPins ch .DIRECTION_UP))
            (digitalRead i.pins (coverLimitSwitchPins ch .DIRECTION_DOWN))
            ((readJumpers i.pins s).useNCLimitSW.get ch)
            ((update i.events
              (interrupt (i.timer 1) (readJumpers i.pins (interrupt (i.timer 0) s)))).view
              ch)) := by
  cases ch
  · exact ⟨_, by
      unfold loop
      simp only [serialPrinting_view, interrupt_view, stateMachine_view_other,
        readEndSwitches_view_other, stateMachine_view_self, readEndSwitches_view_self,
        interrupt_useNCLimitSW, update_useNCLimitSW, readEndSwitches_useNCLimitSW,
        stateMachine_useNCLimitSW, readJumpers_useNCLimitSW,
        ne_eq, reduceCtorEq, not_false_eq_true]
      rfl⟩
  · exact ⟨_, by
      unfold loop
      simp only [serialPrinting_view, interrupt_view, stateMachine_view_other,
        readEndSwitches_view_other, stateMachine_view_self, readEndSwitches_view_self,
        interrupt_useNCLimitSW, update_useNCLimitSW, readEndSwitches_useNCLimitSW,
        stateMachine_useNCLimitSW, readJumpers_useNCLimitSW,
        ne_eq, reduceCtorEq, not_false_eq_true]
      rfl⟩

theorem loop_indicator_follows_blink (i : LoopInput) (s : State) (ch : MOTOR_CHANNEL)
    (hquiet : ∀ k, 3 < k → i.timer k = false) :
    ∃ v, (loop i s).view ch = stateMachineView ((loop i s).indicatorState.get ch) v := by
  have h4 : i.timer 4 = false := hquiet 4 (by decide)
  have h5 : i.timer 5 = false := hquiet 5 (by decide)
  have h6 : i.timer 6 = false := hquiet 6 (by decide)
  have h7 : i.timer 7 = false := hquiet 7 (by decide)
  cases ch
  · exact ⟨_, by
      unfold loop
      simp only [h4, h5, h6, h7, interrupt, serialPrinting_view, stateMachine_view_other,
        readEndSwitches_view_other, stateMachine_view_self, serialPrinting_indicatorState,
        stateMachine_indicatorState, readEndSwitches_indicatorState,
        ne_eq, reduceCtorEq, not_false_eq_true, Bool.false_eq_true, if_false]
      rfl⟩
  · exact ⟨_, by
      unfold loop
      simp only [h4, h5, h6, h7, interrupt, serialPrinting_view, stateMachine_view_other,
        readEndSwitches_view_other, stateMachine_view_self, serialPrinting_indicatorState,
        stateMachine_indicatorState, readEndSwitches_indicatorState,
        ne_eq, reduceCtorEq, not_false_eq_true, Bool.false_eq_true, if_false]
      rfl⟩

theorem opening_view (up down nc blink : Bool) (v : ChannelView) (h : (up == nc) = false) :
    stateMachineView blink (endSwitchView up down nc { v with coverState := .OPENING })
      = { coverState := .OPENING, relayA := true, relayB := false, indicator := blink } := by
  cases up <;> cases down <;> cases nc <;> first | rfl | exact absurd h (by decide)

theorem stateMachineView_opening_indicator (blink : Bool) (v : ChannelView)
    (h : (stateMachineView blink v).coverState = .OPENING) :
    (stateMachineView blink v).indicator = blink := by
  obtain ⟨c, ra, rb, ip⟩ := v
  cases c <;> simp_all [stateMachineView]

theorem serialPrinting_unchanged (channel : MOTOR_CHANNEL) (s : State)
    (h : s.coverState.get channel = s.lastGateState.get channel) :
    serialPrinting channel s = s := by
  unfold serialPrinting
  rw [if_neg (not_not.mpr h)]

theorem endSwitchView_top_reached (up down nc : Bool) (v : ChannelView)
    (htop : (up == nc) = true) (hbottom : (down == nc) = false) :
    endSwitchView up down nc { v with coverState := .OPENING }
      = { v with coverState := .OPEN } := by
  cases up <;> cases down <;> cases nc <;>
    first | rfl | exact absurd htop (by decide) | exact absurd hbottom (by decide)

theorem endSwitchView_bottom_reached (up down nc : Bool) (v : ChannelView)
    (htop : (up == nc) = false) (hbottom : (down == nc) = true) :
    endSwitchView up down nc { v with coverState := .CLOSING }
      = { v with coverState := .CLOSED } := by
  cases up <;> cases down <;> cases nc <;>
    first | rfl | exact absurd htop (by decide) | exact absurd hbottom (by decide)

/-- A press followed by `readEndSwitches`, `stateMachine` and `serialPrinting` for a channel
whose end position the switches confirm: the views after each call and the serial port. -/
theorem press_at_end_position (pins : InputPin → Bool) (channel : MOTOR_CHANNEL) (s : State)
    (button : Button) (moving final : CoverState)
    (hpress : (s.onPress button).view channel = { s.view channel with coverState := moving })
    (hswitch : endSwitchView (digitalRead pins (coverLimitSwitchPins channel .DIRECTION_UP))
        (digitalRead pins (coverLimitSwitchPins channel .DIRECTION_DOWN))
        (s.useNCLimitSW.get channel) { s.view channel with coverState := moving }
      = { s.view channel with coverState := final })
    (hfinal : final = .OPEN ∨ final = .CLOSED)
    (hlast : s.lastGateState.get channel = final)
    (hA : s.relayA channel = false) (hB : s.relayB channel = false) :
    (s.onPress button).relayA channel = false ∧ (s.onPress button).relayB channel = false ∧
    (readEndSwitches pins channel (s.onPress button)).relayA channel = false ∧
    (readEndSwitches pins channel (s.onPress button)).relayB channel = false ∧
    (stateMachine channel (readEndSwitches pins channel (s.onPress button))).view channel
      = { coverState := final, relayA := false, relayB := false, indicator := false } ∧
    serialPrinting channel
        (stateMachine channel (readEndSwitches pins channel (s.onPress button)))
      = stateMachine channel (readEndSwitches pins channel (s.onPress button)) ∧
    (stateMachine channel (readEndSwitches pins channel (s.onPress button))).Serial
      = s.Serial := by
  have h2 : (readEndSwitches pins channel (s.onPress button)).view channel
      = { s.view channel with coverState := final } := by
    rw [readEndSwitches_view_self, hpress]
    exact hswitch
  have h3 : (stateMachine channel (readEndSwitches pins channel (s.onPress button))).view
      channel = { coverState := final, relayA := false, relayB := false, indicator := false } := by
    rw [stateMachine_view_self, h2]
    rcases hfinal with h | h <;> subst h <;> rfl
  have hlast3 : (stateMachine channel
      (readEndSwitches pins channel (s.onPress button))).lastGateState = s.lastGateState := by
    rw [(stateMachine_frame _ _).2.2.2.1, (readEndSwitches_frame _ _ _).2.1]
    rfl
  have hser3 : (stateMachine channel
      (readEndSwitches pins channel (s.onPress button))).Serial = s.Serial := by
    rw [(stateMachine_frame _ _).2.2.2.2, (readEndSwitches_frame _ _ _).2.2]
    rfl
  refine ⟨?_, ?_, ?_, ?_, h3, ?_, hser3⟩
  · rw [← hA]; exact congrArg ChannelView.relayA hpress
  · rw [← hB]; exact congrArg ChannelView.relayB hpress
  · rw [← hA]; exact congrArg ChannelView.relayA h2
  · rw [← hB]; exact congrArg ChannelView.relayB h2
  · apply serialPrinting_unchanged
    rw [hlast3, hlast]
    exact congrArg ChannelView.coverState h3

theorem serialPrinting_changed (channel : MOTOR_CHANNEL) (s : State)
    (h : s.coverState.get channel ≠ s.lastGateState.get channel) :
    serialPrinting channel s
      = { s with
          lastGateState := s.lastGateState.set channel (s.coverState.get channel)
          Serial := s.Serial ++
            ["Channel " ++ channelDigits channel ++ ": " ++ stateName (s.coverState.get channel)] } := by
  unfold serialPrinting
  rw [if_pos h]

theorem SW.serialPrinting_sw_changed (channel : MOTOR_CHANNEL) (s : State)
    (h : s.coverState.get channel ≠ s.lastGateState.get channel) :
    SW.serialPrinting channel s
      = { s with
          lastGateState := s.lastGateState.set channel (s.coverState.get channel)
          Serial := s.Serial ++
            ["Channel " ++ channelDigits channel ++ ": " ++ stateName (s.coverState.get channel)] } := by
  unfold SW.serialPrinting
  rw [if_pos h]

theorem SW.serialPrinting_sw_unchanged (channel : MOTOR_CHANNEL) (s : State)
    (h : s.coverState.get channel = s.lastGateState.get channel) :
    SW.serialPrinting channel s = s := by
  unfold SW.serialPrinting
  rw [if_neg (not_not.mpr h)]
  obtain ⟨ind, hu, hd, nc, r1, r2, r3, r4, ⟨cA, cB⟩, ⟨lA, lB⟩, ip, led, ser⟩ := s
  cases channel
  · have h2 : cA = lA := h
    subst h2
    rfl
  · have h2 : cB = lB := h
    subst h2
    rfl

/-- What a printing function has to do: one line for a changed state, none for an unchanged
one, `lastGateState[channel]` ending equal to `coverState[channel]`, `coverState` untouched. -/
theorem printing_contract (print : State → State) (channel : MOTOR_CHANNEL) (s : State)
    (hchanged : s.coverState.get channel ≠ s.lastGateState.get channel →
      print s = { s with
          lastGateState := s.lastGateState.set channel (s.coverState.get channel)
          Serial := s.Serial ++
            ["Channel " ++ channelDigits channel ++ ": " ++ stateName (s.coverState.get channel)] })
    (hunchanged : s.coverState.get channel = s.lastGateState.get channel → print s = s) :
    (s.coverState.get channel ≠ s.lastGateState.get channel →
      (print s).Serial = s.Serial ++
        ["Channel " ++ channelDigits channel ++ ": " ++ stateName (s.coverState.get channel)]) ∧
    (s.coverState.get channel = s.lastGateState.get channel → (print s).Serial = s.Serial) ∧
    (print s).lastGateState.get channel = s.coverState.get channel ∧
    (print s).coverState = s.coverState := by
  by_cases h : s.coverState.get channel = s.lastGateState.get channel
  · rw [hunchanged h]
    exact ⟨fun hne => absurd h hne, fun _ => rfl, h.symm, rfl⟩
  · rw [hchanged h]
    exact ⟨fun _ => rfl, fun he => absurd he h, ChannelArray.get_set_self _ _ _, rfl⟩

theorem endSwitchView_inverted (up down nc : Bool) (v : ChannelView) :
    endSwitchView (!up) (!down) (!nc) v = endSwitchView up down nc v := by
  obtain ⟨c, ra, rb, ip⟩ := v
  cases up <;> cases down <;> cases nc <;> cases c <;> rfl

theorem view_never_into_active_switch (up down nc blink : Bool) (v : ChannelView) :
    ((stateMachineView blink (endSwitchView up down nc v)).relayA = true →
      (up == nc) = false) ∧
    ((stateMachineView blink (endSwitchView up down nc v)).relayB = true →
      (down == nc) = false) ∧
    ¬((endSwitchView up down nc v).coverState = .OPENING ∧ (up == nc) = true) ∧
    ¬((endSwitchView up down nc v).coverState = .CLOSING ∧ (down == nc) = true) := by
  obtain ⟨c, ra, rb, ip⟩ := v
  cases c <;> cases up <;> cases down <;> cases nc <;>
    simp [stateMachineView, endSwitchView, endSwitchState]

theorem SW.readJumpers_hold (pins : InputPin → Bool) (s : State) :
    (SW.readJumpers pins s).holdButtonUp = (!digitalRead pins .JUMP_3) ∧
    (SW.readJumpers pins s).holdButtonDown = (!digitalRead pins .JUMP_4) := by
  unfold SW.readJumpers
  generalize digitalRead pins .JUMP_3 = j3
  generalize digitalRead pins .JUMP_4 = j4
  cases j3 <;> cases j4 <;> exact ⟨rfl, rfl⟩

theorem readEndSwitches_sw_NO_case (pins : InputPin → Bool) (channel : MOTOR_CHANNEL)
    (s : State) (hNO : s.useNCLimitSW.get channel = false) :
    (SW.readEndSwitches pins channel s.coverState).1
      = (readEndSwitches pins channel s).coverState ∧
    (SW.readEndSwitches pins channel s.coverState).2
      = readEndSwitchesCommands pins channel s ∧
    readEndSwitches pins channel s
      = { (readEndSwitchesCommands pins channel s).foldl State.command s with
          coverState := (SW.readEndSwitches pins channel s.coverState).1 } := by
  unfold SW.readEndSwitches readEndSwitches readEndSwitchesCommands
  generalize digitalRead pins (coverLimitSwitchPins channel .DIRECTION_UP) = u
  generalize digitalRead pins (coverLimitSwitchPins channel .DIRECTION_DOWN) = d
  obtain ⟨ind, hu, hd, ⟨ncA, ncB⟩, r1, r2, r3, r4, ⟨cA, cB⟩, last, ⟨ipA, ipB⟩, led, ser⟩ := s
  cases channel
  · have h : ncA = false := hNO
    subst h
    cases u <;> cases d <;> cases cA <;> exact ⟨rfl, rfl, rfl⟩
  · have h : ncB = false := hNO
    subst h
    cases u <;> cases d <;> cases cB <;> exact ⟨rfl, rfl, rfl⟩

theorem cover_commands_agree (channel : MOTOR_CHANNEL) (s : State) :
    stopCover channel s = (stopCoverCommands channel).foldl State.command s ∧
    openCover channel s = (openCoverCommands channel).foldl State.command s ∧
    closeCover channel s = (closeCoverCommands channel).foldl State.command s ∧
    stopCoverCommands channel = SW.stopCover channel ∧
    openCoverCommands channel = SW.openCover channel ∧
    closeCoverCommands channel = SW.closeCover channel := by
  cases channel <;> exact ⟨rfl, rfl, rfl, rfl, rfl, rfl⟩

theorem setupRelays_value (initial : Bool) :
    setupRelays initial = some
      { objects := [⟨PIN_RELAY_M1A, false, false⟩, ⟨PIN_RELAY_M1B, false, false⟩,
          ⟨PIN_RELAY_M2A, false, false⟩, ⟨PIN_RELAY_M2B, false, false⟩]
        relay1 := some 0, relay2 := some 1, relay3 := some 2, relay4 := some 3 } := by
  cases initial <;> rfl

theorem SW.setupCreateRelays_value (initial : Bool) :
    SW.setupCreateRelays initial SW.staticInitialization
      = { objects := [⟨PIN_RELAY_M1A, true, initial⟩, ⟨PIN_RELAY_M1B, true, initial⟩,
            ⟨PIN_RELAY_M2A, true, initial⟩, ⟨PIN_RELAY_M2B, true, initial⟩]
          relay1 := some 2, relay2 := some 3, relay3 := none, relay4 := none
          coverRelays := ⟨(none, none), (none, none)⟩ } := by
  cases initial <;> rfl

/-! ## Theorems -/

/-- C1: when both limit switches of a channel read active, `readEndSwitches` leaves the
channel in `UNKNOWN` with both relays off, and the relays are still off after
`stateMachine`. -/
theorem both_active_unknown_relays_off (pins : InputPin → Bool) (channel : MOTOR_CHANNEL)
    (s : State)
    (hup : digitalRead pins (coverLimitSwitchPins channel .DIRECTION_UP)
      = s.useNCLimitSW.get channel)
    (hdown : digitalRead pins (coverLimitSwitchPins channel .DIRECTION_DOWN)
      = s.useNCLimitSW.get channel) :
    (readEndSwitches pins channel s).coverState.get channel = .UNKNOWN ∧
    (readEndSwitches pins channel s).relayA channel = false ∧
    (readEndSwitches pins channel s).relayB channel = false ∧
    (stateMachine channel (readEndSwitches pins channel s)).relayA channel = false ∧
    (stateMachine channel (readEndSwitches pins channel s)).relayB channel = false := by
  cases channel <;>
    simp [readEndSwitches, stateMachine, stopCover, digitalWriteIndicator, hup, hdown,
      ChannelArray.get, ChannelArray.set, State.relayA, State.relayB] <;>
    split <;> simp

/-- Example for C1: channel A is being opened (relay A on) when both of its switches read
active. -/
theorem both_active_unknown_relays_off_witness :
    (readEndSwitches pinsAllLow .CHANNEL_A bothOpening).coverState.get .CHANNEL_A = .UNKNOWN ∧
    (readEndSwitches pinsAllLow .CHANNEL_A bothOpening).relayA .CHANNEL_A = false ∧
    (readEndSwitches pinsAllLow .CHANNEL_A bothOpening).relayB .CHANNEL_A = false ∧
    (stateMachine .CHANNEL_A (readEndSwitches pinsAllLow .CHANNEL_A bothOpening)).relayA
      .CHANNEL_A = false ∧
    (stateMachine .CHANNEL_A (readEndSwitches pinsAllLow .CHANNEL_A bothOpening)).relayB
      .CHANNEL_A = false :=
  both_active_unknown_relays_off pinsAllLow .CHANNEL_A bothOpening rfl rfl

/-- C2: the state left by the if-statements of `readEndSwitches` is the state given by the
first matching rule of the ordered list of the specification. -/
theorem readEndSwitches_first_match (pins : InputPin → Bool) (channel : MOTOR_CHANNEL)
    (s : State) :
    (readEndSwitches pins channel s).coverState.get channel
      = firstMatchRule (topActive pins channel s) (bottomActive pins channel s)
          (s.coverState.get channel) := by
  rw [readEndSwitches_coverState_self]
  simp only [topActive, bottomActive, beq_iff_eq]
  generalize digitalRead pins (coverLimitSwitchPins channel .DIRECTION_UP) = u
  generalize digitalRead pins (coverLimitSwitchPins channel .DIRECTION_DOWN) = d
  generalize s.useNCLimitSW.get channel = nc
  generalize s.coverState.get channel = c
  cases u <;> cases d <;> cases nc <;> cases c <;> decide

/-- C3: the button handlers never change a channel's state to `OPEN` or `CLOSED`;
`readEndSwitches` never changes a channel's state to `OPENING`, `CLOSING` or `STOP`, changes
a state to `OPEN` only for its own channel with the top switch reading active, and to
`CLOSED` only for its own channel with the bottom switch reading active. -/
theorem who_asserts_which_state (button : Button) (pins : InputPin → Bool)
    (channel ch : MOTOR_CHANNEL) (s : State) :
    ((s.onPress button).coverState.get ch = s.coverState.get ch ∨
      ((s.onPress button).coverState.get ch ≠ .OPEN ∧
        (s.onPress button).coverState.get ch ≠ .CLOSED)) ∧
    ((s.onRelease button).coverState.get ch = s.coverState.get ch ∨
      ((s.onRelease button).coverState.get ch ≠ .OPEN ∧
        (s.onRelease button).coverState.get ch ≠ .CLOSED)) ∧
    ((readEndSwitches pins channel s).coverState.get ch = s.coverState.get ch ∨
      ((readEndSwitches pins channel s).coverState.get ch ≠ .OPENING ∧
        (readEndSwitches pins channel s).coverState.get ch ≠ .CLOSING ∧
        (readEndSwitches pins channel s).coverState.get ch ≠ .STOP)) ∧
    ((readEndSwitches pins channel s).coverState.get ch = .OPEN →
      s.coverState.get ch ≠ .OPEN → ch = channel ∧ topActive pins channel s = true) ∧
    ((readEndSwitches pins channel s).coverState.get ch = .CLOSED →
      s.coverState.get ch ≠ .CLOSED → ch = channel ∧ bottomActive pins channel s = true) := by
  refine ⟨?_, ?_, ?_, ?_, ?_⟩
  · exact onPress_get button s.coverState ch
  · exact onRelease_get s.holdButtonUp s.holdButtonDown button s.coverState ch
  · rw [readEndSwitches_coverState]
    by_cases h : ch = channel
    · subst h
      rw [if_pos rfl]
      generalize digitalRead pins (coverLimitSwitchPins ch .DIRECTION_UP) = u
      generalize digitalRead pins (coverLimitSwitchPins ch .DIRECTION_DOWN) = d
      generalize s.useNCLimitSW.get ch = nc
      generalize s.coverState.get ch = c
      cases u <;> cases d <;> cases nc <;> cases c <;> decide
    · rw [if_neg h]
      exact Or.inl rfl
  · rw [readEndSwitches_coverState]
    by_cases h : ch = channel
    · subst h
      rw [if_pos rfl]
      simp only [topActive, beq_iff_eq]
      generalize digitalRead pins (coverLimitSwitchPins ch .DIRECTION_UP) = u
      generalize digitalRead pins (coverLimitSwitchPins ch .DIRECTION_DOWN) = d
      generalize s.useNCLimitSW.get ch = nc
      generalize s.coverState.get ch = c
      cases u <;> cases d <;> cases nc <;> cases c <;> decide
    · rw [if_neg h]
      intro h1 h2
      exact absurd h1 h2
  · rw [readEndSwitches_coverState]
    by_cases h : ch = channel
    · subst h
      rw [if_pos rfl]
      simp only [bottomActive, beq_iff_eq]
      generalize digitalRead pins (coverLimitSwitchPins ch .DIRECTION_UP) = u
      generalize digitalRead pins (coverLimitSwitchPins ch .DIRECTION_DOWN) = d
      generalize s.useNCLimitSW.get ch = nc
      generalize s.coverState.get ch = c
      cases u <;> cases d <;> cases nc <;> cases c <;> decide
    · rw [if_neg h]
      intro h1 h2
      exact absurd h1 h2

/-- Example for C3: with the top switch of channel A active (level `LOW`, normally open)
and the bottom one inactive, `readEndSwitches` changes `OPENING` to `OPEN`, and the theorem
gives that the top switch reads active. -/
theorem who_asserts_which_state_witness :
    (readEndSwitches (fun pin => decide (pin = .PIN_ENDSW_S2_DOWN)) .CHANNEL_A
      bothOpening).coverState.get .CHANNEL_A = .OPEN ∧
    bothOpening.coverState.get .CHANNEL_A ≠ .OPEN ∧
    topActive (fun pin => decide (pin = .PIN_ENDSW_S2_DOWN)) .CHANNEL_A bothOpening = true :=
  ⟨by decide, by decide,
    ((who_asserts_which_state .buttonS7Stop (fun pin => decide (pin = .PIN_ENDSW_S2_DOWN))
      .CHANNEL_A .CHANNEL_A bothOpening).2.2.2.1 (by decide) (by decide)).2⟩

/-- C4: pressing Stop leaves a channel that is `UNKNOWN` in `UNKNOWN` and puts every other
channel in `STOP`, each channel being decided by its own state alone. -/
theorem stop_press_per_channel (s : State) (ch : MOTOR_CHANNEL) :
    (s.onPress .buttonS7Stop).coverState.get ch
      = if s.coverState.get ch = .UNKNOWN then .UNKNOWN else .STOP :=
  onPress_stop_get s.coverState ch

/-- C5 does not hold on the code: `onRelease` stores `STOP` in both channels without
testing the state, where the Stop case of `onPress` leaves a channel in `UNKNOWN`. With the
hold flags true, a release of Open or of Close moves every channel from `UNKNOWN` to `STOP`.
The state is reached by poll cycles from `setup`: in hold-to-move mode Open is pressed,
channel A reaches its top switch (`OPEN`) and loses it (`UNKNOWN`); the release of Open then
ends the cycle with both channels in `STOP`, where a press of Stop ends it with channel A in
`UNKNOWN`. -/
theorem hold_release_stops_unknown_channel :
    (∀ (s : State) (ch : MOTOR_CHANNEL), s.coverState.get ch = .UNKNOWN →
      (s.holdButtonUp = true → (s.onRelease .buttonS5Up).coverState.get ch = .STOP) ∧
      (s.holdButtonDown = true → (s.onRelease .buttonS6Down).coverState.get ch = .STOP) ∧
      (s.onPress .buttonS7Stop).coverState.get ch = .UNKNOWN) ∧
    (setupHoldToMove.holdButtonUp = true ∧ setupHoldToMove.holdButtonDown = true ∧
      setupHoldToMove.coverState.get .CHANNEL_A = .UNKNOWN ∧
      (setupHoldToMove.onRelease .buttonS5Up).coverState.get .CHANNEL_A = .STOP ∧
      (setupHoldToMove.onRelease .buttonS6Down).coverState.get .CHANNEL_A = .STOP) ∧
    ((run cyclesHoldOpenThenLost setup).coverState = ⟨.UNKNOWN, .OPENING⟩ ∧
      (run cyclesHoldOpenThenLost setup).holdButtonUp = true ∧
      (loop cycleHoldOpenReleased (run cyclesHoldOpenThenLost setup)).coverState
        = ⟨.STOP, .STOP⟩ ∧
      (loop cycleHoldStopPressed (run cyclesHoldOpenThenLost setup)).coverState
        = ⟨.UNKNOWN, .STOP⟩) := by
  refine ⟨?_, by decide, by decide⟩
  intro s ch h
  obtain ⟨ind, hu, hd, nc, r1, r2, r3, r4, ⟨cA, cB⟩, last, ip, led, ser⟩ := s
  refine ⟨?_, ?_, ?_⟩
  · intro hup
    have hup2 : hu = true := hup
    subst hup2
    cases ch <;> rfl
  · intro hdown
    have hdown2 : hd = true := hdown
    subst hdown2
    cases ch <;> rfl
  · cases ch
    · have h2 : cA = .UNKNOWN := h
      subst h2
      cases cB <;> rfl
    · have h2 : cB = .UNKNOWN := h
      subst h2
      cases cA <;> rfl

/-- C6: releasing Open leaves both states as they are when `holdButtonUp` is false and
sets both to `STOP` when it is true; releasing Close does the same with `holdButtonDown`;
giving the hold flag of the other direction any value `flag` does not change the result.
The states before the release are arbitrary, `OPENING` and `CLOSING` included. -/
theorem release_depends_on_own_hold_flag (s : State) (flag : Bool) :
    (s.onRelease .buttonS5Up).coverState
      = (if s.holdButtonUp = true then ⟨.STOP, .STOP⟩ else s.coverState) ∧
    (s.onRelease .buttonS6Down).coverState
      = (if s.holdButtonDown = true then ⟨.STOP, .STOP⟩ else s.coverState) ∧
    ({ s with holdButtonDown := flag }.onRelease .buttonS5Up).coverState
      = (s.onRelease .buttonS5Up).coverState ∧
    ({ s with holdButtonUp := flag }.onRelease .buttonS6Down).coverState
      = (s.onRelease .buttonS6Down).coverState := by
  obtain ⟨ind, hu, hd, nc, r1, r2, r3, r4, ⟨cA, cB⟩, last, ip, led, ser⟩ := s
  cases hu <;> cases hd <;> exact ⟨rfl, rfl, rfl, rfl⟩

/-- C7: pressing Open puts both channels in `OPENING` and pressing Close puts both in
`CLOSING`, whatever their states were. -/
theorem press_commands_both_channels (s : State) :
    (s.onPress .buttonS5Up).coverState = ⟨.OPENING, .OPENING⟩ ∧
    (s.onPress .buttonS6Down).coverState = ⟨.CLOSING, .CLOSING⟩ :=
  ⟨rfl, rfl⟩

/-- C8: `readEndSwitches(channel)` and `stateMachine(channel)` leave the state, the relays
and the indicator pin of the other channel as they were; and what they produce for
`channel` is the same in two runs that agree on the state, relays, indicator pin, blink
phase, polarity flag and limit-switch levels of `channel`, however the runs differ on the
other channel. -/
theorem channel_independence (pins pins2 : InputPin → Bool) (channel ch : MOTOR_CHANNEL)
    (s s2 : State) (hch : ch ≠ channel)
    (hview : s.view channel = s2.view channel)
    (hblink : s.indicatorState.get channel = s2.indicatorState.get channel)
    (hnc : s.useNCLimitSW.get channel = s2.useNCLimitSW.get channel)
    (hup : digitalRead pins (coverLimitSwitchPins channel .DIRECTION_UP)
      = digitalRead pins2 (coverLimitSwitchPins channel .DIRECTION_UP))
    (hdown : digitalRead pins (coverLimitSwitchPins channel .DIRECTION_DOWN)
      = digitalRead pins2 (coverLimitSwitchPins channel .DIRECTION_DOWN)) :
    (readEndSwitches pins channel s).view ch = s.view ch ∧
    (stateMachine channel s).view ch = s.view ch ∧
    (stateMachine channel (readEndSwitches pins channel s)).view ch = s.view ch ∧
    (readEndSwitches pins channel s).view channel
      = (readEndSwitches pins2 channel s2).view channel ∧
    (stateMachine channel s).view channel = (stateMachine channel s2).view channel ∧
    (stateMachine channel (readEndSwitches pins channel s)).view channel
      = (stateMachine channel (readEndSwitches pins2 channel s2)).view channel := by
  refine ⟨readEndSwitches_view_other pins channel ch s hch,
    stateMachine_view_other channel ch s hch, ?_, ?_, ?_, ?_⟩
  · rw [stateMachine_view_other channel ch _ hch, readEndSwitches_view_other pins channel ch s hch]
  · rw [readEndSwitches_view_self, readEndSwitches_view_self, hview, hnc, hup, hdown]
  · rw [stateMachine_view_self, stateMachine_view_self, hview, hblink]
  · rw [stateMachine_view_self, stateMachine_view_self, readEndSwitches_indicatorState,
      readEndSwitches_indicatorState, readEndSwitches_view_self, readEndSwitches_view_self,
      hview, hblink, hnc, hup, hdown]

/-- Example for C8: channel B runs from `setup` with no switch of A active, and from a
state where channel A is opening with both switches of A active; channel B reaches the same
view in both runs, and channel A is left as it was. -/
theorem channel_independence_witness :
    (stateMachine .CHANNEL_B (readEndSwitches pinsNoSwitchActive .CHANNEL_B setup)).view
        .CHANNEL_B
      = (stateMachine .CHANNEL_B
          (readEndSwitches
            (fun pin => decide (pin = .PIN_ENDSW_S3_UP ∨ pin = .PIN_ENDSW_S4_DOWN)) .CHANNEL_B
            { setup with coverState := ⟨.OPENING, .UNKNOWN⟩, relay1 := true })).view
          .CHANNEL_B ∧
    (stateMachine .CHANNEL_B (readEndSwitches pinsNoSwitchActive .CHANNEL_B setup)).view
        .CHANNEL_A
      = setup.view .CHANNEL_A :=
  have h := channel_independence pinsNoSwitchActive
    (fun pin => decide (pin = .PIN_ENDSW_S3_UP ∨ pin = .PIN_ENDSW_S4_DOWN)) .CHANNEL_B
    .CHANNEL_A setup { setup with coverState := ⟨.OPENING, .UNKNOWN⟩, relay1 := true }
    (by decide) rfl rfl rfl rfl rfl
  ⟨h.2.2.2.2.2, h.2.2.1⟩

/-- The actuator table as an invariant of `loop`, in which the level on each pin is the same
in all the reads of one call of `readEndSwitches`: from a state with both channels `UNKNOWN`
and the four relays off, as `setup` leaves it, after every sequence of such poll cycles,
whatever the input levels, button events and timer interrupts of each cycle, the relays of
each channel are those the actuator table gives for its state. -/
theorem relays_match_state_every_cycle (s0 : State) (cycles : List LoopInput)
    (ch : MOTOR_CHANNEL)
    (hstate : s0.coverState = ⟨.UNKNOWN, .UNKNOWN⟩)
    (hrelays : s0.relay1 = false ∧ s0.relay2 = false ∧ s0.relay3 = false ∧ s0.relay4 = false) :
    ((run cycles s0).relayA ch, (run cycles s0).relayB ch)
      = actuatorTable ((run cycles s0).coverState.get ch) := by
  apply run_relaysMatch cycles s0 ch
  obtain ⟨ind, hu, hd, nc, r1, r2, r3, r4, cs, last, ip, led, ser⟩ := s0
  obtain ⟨h1, h2, h3, h4⟩ := hrelays
  simp only at hstate h1 h2 h3 h4
  subst hstate h1 h2 h3 h4
  cases ch <;> rfl

/-- Example for the invariant of `loop`: after `setup` and one cycle in which Open is
pressed with no limit switch active, channel A is `OPENING` with relay A on and relay B
off. -/
theorem relays_match_state_every_cycle_witness :
    (run [cycleOpenPressed] setup).coverState.get .CHANNEL_A = .OPENING ∧
    ((run [cycleOpenPressed] setup).relayA .CHANNEL_A,
        (run [cycleOpenPressed] setup).relayB .CHANNEL_A)
      = actuatorTable ((run [cycleOpenPressed] setup).coverState.get .CHANNEL_A) :=
  ⟨by decide,
    relays_match_state_every_cycle setup [cycleOpenPressed] .CHANNEL_A rfl ⟨rfl, rfl, rfl, rfl⟩⟩

/-- C9 does not hold on the code: `readEndSwitches` reads the pin of the top switch again in
each `if`. After `setup` and a cycle with Open pressed, channel A is `OPENING` with relay A
on. In the next cycle the top switch of channel A reads active in the second `if`, which
stores `OPEN`, and inactive in the fourth, which stores `UNKNOWN` without a call of
`stopCover`; `stateMachine` writes no relay in `UNKNOWN`, so the cycle ends with channel A
in `UNKNOWN` and relay A on, and it stays so in a following cycle with no switch active.
`readEndSwitchesWith` and `loopWith` are `readEndSwitches` and `loop` when the levels do not
change during a call. -/
theorem unknown_with_relay_on_when_switch_rereads_differ :
    (∀ (pins : InputPin → Bool) (channel : MOTOR_CHANNEL) (s : State),
      readEndSwitchesWith (SwitchReads.steady pins channel) channel s
        = readEndSwitches pins channel s) ∧
    (∀ (i : LoopInput) (s : State),
      loopWith i (SwitchReads.steady i.pins .CHANNEL_A) (SwitchReads.steady i.pins .CHANNEL_B) s
        = loop i s) ∧
    ((run [cycleOpenPressed] setup).coverState.get .CHANNEL_A = .OPENING ∧
      (run [cycleOpenPressed] setup).relayA .CHANNEL_A = true ∧
      (run [cycleOpenPressed] setup).relayB .CHANNEL_A = false) ∧
    ((loopWith cycleIdle readsTopSwitchReleased
        (SwitchReads.steady cycleIdle.pins .CHANNEL_B)
        (run [cycleOpenPressed] setup)).coverState.get .CHANNEL_A = .UNKNOWN ∧
      (loopWith cycleIdle readsTopSwitchReleased
        (SwitchReads.steady cycleIdle.pins .CHANNEL_B)
        (run [cycleOpenPressed] setup)).relayA .CHANNEL_A = true ∧
      actuatorTable .UNKNOWN = (false, false)) ∧
    ((loop cycleIdle (loopWith cycleIdle readsTopSwitchReleased
        (SwitchReads.steady cycleIdle.pins .CHANNEL_B)
        (run [cycleOpenPressed] setup))).coverState.get .CHANNEL_A = .UNKNOWN ∧
      (loop cycleIdle (loopWith cycleIdle readsTopSwitchReleased
        (SwitchReads.steady cycleIdle.pins .CHANNEL_B)
        (run [cycleOpenPressed] setup))).relayA .CHANNEL_A = true) := by
  refine ⟨fun _ _ _ => rfl, fun _ _ => rfl, by decide, by decide, by decide⟩

/-- C10: after `stateMachine(channel)` the indicator pin of the channel carries the blink
phase `indicatorState[channel]` when the state is `OPENING`, `CLOSING` or `UNKNOWN`, and is
low when the state is `OPEN` or `CLOSED`. -/
theorem stateMachine_indicator (channel : MOTOR_CHANNEL) (s : State) :
    ((s.coverState.get channel = .OPENING ∨ s.coverState.get channel = .CLOSING ∨
        s.coverState.get channel = .UNKNOWN) →
      (stateMachine channel s).coverIndicatorPins.get channel
        = s.indicatorState.get channel) ∧
    ((s.coverState.get channel = .OPEN ∨ s.coverState.get channel = .CLOSED) →
      (stateMachine channel s).coverIndicatorPins.get channel = false) := by
  have h := congrArg ChannelView.indicator (stateMachine_view_self channel s)
  have hv : ((stateMachine channel s).view channel).indicator
      = (stateMachine channel s).coverIndicatorPins.get channel := rfl
  have hc : (s.view channel).coverState = s.coverState.get channel := rfl
  rw [hv] at h
  rw [h]
  unfold stateMachineView
  rw [hc]
  generalize s.coverState.get channel = c
  cases c <;> simp

/-- Example for C10: in `OPENING` with the blink phase high and the indicator pin low, the
pin is high after `stateMachine`; in `OPEN` with the pin high, it is low afterwards. -/
theorem stateMachine_indicator_witness :
    (stateMachine .CHANNEL_A
      { bothOpening with indicatorState := ⟨true, true⟩ }).coverIndicatorPins.get .CHANNEL_A
      = true ∧
    (stateMachine .CHANNEL_A
      { setup with coverState := ⟨.OPEN, .OPEN⟩,
                   coverIndicatorPins := ⟨true, true⟩ }).coverIndicatorPins.get .CHANNEL_A
      = false :=
  ⟨(stateMachine_indicator .CHANNEL_A { bothOpening with indicatorState := ⟨true, true⟩ }).1
      (Or.inl rfl),
    (stateMachine_indicator .CHANNEL_A
      { setup with coverState := ⟨.OPEN, .OPEN⟩, coverIndicatorPins := ⟨true, true⟩ }).2
      (Or.inl rfl)⟩

/-- C11 does not hold on the code: the `STOP` case of `stateMachine` switches the relays off
and writes no level to the indicator pin, so the pin keeps the level it had. From `setup`, an
Open press with the blink phase high followed by a Stop press leaves channel A in `STOP` with
its indicator pin `HIGH`. -/
theorem stop_leaves_indicator_as_it_was :
    (∀ (channel : MOTOR_CHANNEL) (s : State), s.coverState.get channel = .STOP →
      (stateMachine channel s).coverIndicatorPins.get channel
        = s.coverIndicatorPins.get channel) ∧
    stoppedIndicatorHigh.coverState.get .CHANNEL_A = .STOP ∧
    (stateMachine .CHANNEL_A stoppedIndicatorHigh).coverIndicatorPins.get .CHANNEL_A = true ∧
    (run [cycleOpenPressed, cycleStopPressed] setup).coverState.get .CHANNEL_A = .STOP ∧
    (run [cycleOpenPressed, cycleStopPressed] setup).coverIndicatorPins.get .CHANNEL_A
      = true := by
  refine ⟨?_, by decide, by decide, by decide, by decide⟩
  intro channel s h
  have hv := congrArg ChannelView.indicator (stateMachine_view_self channel s)
  have hc : (s.view channel).coverState = .STOP := h
  unfold stateMachineView at hv
  rw [hc] at hv
  exact hv

/-- C12: for every polarity flag, `readEndSwitches` keeps a channel in `CLOSED` while its
bottom switch reads active and its top switch inactive, and moves it to `UNKNOWN` when both
read inactive; it keeps a channel in `OPEN` while its top switch reads active and its bottom
switch inactive, and moves it to `UNKNOWN` when both read inactive. -/
theorem position_kept_or_lost (pins : InputPin → Bool) (channel : MOTOR_CHANNEL)
    (s : State) :
    (s.coverState.get channel = .CLOSED → topActive pins channel s = false →
      bottomActive pins channel s = true →
      (readEndSwitches pins channel s).coverState.get channel = .CLOSED) ∧
    (s.coverState.get channel = .CLOSED → topActive pins channel s = false →
      bottomActive pins channel s = false →
      (readEndSwitches pins channel s).coverState.get channel = .UNKNOWN) ∧
    (s.coverState.get channel = .OPEN → topActive pins channel s = true →
      bottomActive pins channel s = false →
      (readEndSwitches pins channel s).coverState.get channel = .OPEN) ∧
    (s.coverState.get channel = .OPEN → topActive pins channel s = false →
      bottomActive pins channel s = false →
      (readEndSwitches pins channel s).coverState.get channel = .UNKNOWN) := by
  rw [readEndSwitches_coverState_self]
  unfold topActive bottomActive
  generalize digitalRead pins (coverLimitSwitchPins channel .DIRECTION_UP) = u
  generalize digitalRead pins (coverLimitSwitchPins channel .DIRECTION_DOWN) = d
  generalize s.useNCLimitSW.get channel = nc
  generalize s.coverState.get channel = c
  cases u <;> cases d <;> cases nc <;> cases c <;> decide

/-- Example for C12: channel A, normally-open switches, state `CLOSED`: with the top switch
inactive and the bottom switch active the state stays `CLOSED`; when the bottom switch then
reads inactive the state becomes `UNKNOWN`. -/
theorem position_kept_or_lost_witness :
    (readEndSwitches pinsBottomActiveA .CHANNEL_A closedA).coverState.get .CHANNEL_A
      = .CLOSED ∧
    (readEndSwitches pinsNoSwitchActive .CHANNEL_A
        (readEndSwitches pinsBottomActiveA .CHANNEL_A closedA)).coverState.get .CHANNEL_A
      = .UNKNOWN ∧
    (readEndSwitches pinsTopActiveA .CHANNEL_A openA).coverState.get .CHANNEL_A = .OPEN ∧
    (readEndSwitches pinsNoSwitchActive .CHANNEL_A openA).coverState.get .CHANNEL_A
      = .UNKNOWN :=
  ⟨(position_kept_or_lost pinsBottomActiveA .CHANNEL_A closedA).1 rfl rfl rfl,
    (position_kept_or_lost pinsNoSwitchActive .CHANNEL_A
      (readEndSwitches pinsBottomActiveA .CHANNEL_A closedA)).2.1 (by decide) (by decide)
      (by decide),
    (position_kept_or_lost pinsTopActiveA .CHANNEL_A openA).2.2.1 rfl rfl rfl,
    (position_kept_or_lost pinsNoSwitchActive .CHANNEL_A openA).2.2.2 rfl rfl rfl⟩

/-- C13: an Open press followed by `readEndSwitches(channel)` and `stateMachine(channel)`,
the top switch of the channel reading inactive, leaves the channel in `OPENING` with relay A
on, relay B off and the indicator pin at the blink phase, whatever the state before. The same
holds for a whole pass of `loop` whose only button event is the press of Open; there the
indicator pin equals the blink phase at the end of the pass when no timer interrupt is served
after the call of `stateMachine(CHANNEL_A)` has begun. -/
theorem open_press_whole_cycle (pins : InputPin → Bool) (i : LoopInput) (s : State)
    (channel : MOTOR_CHANNEL) :
    (topActive pins channel s = false →
      (stateMachine channel
        (readEndSwitches pins channel (s.onPress .buttonS5Up))).coverState.get channel
        = .OPENING ∧
      (stateMachine channel
        (readEndSwitches pins channel (s.onPress .buttonS5Up))).relayA channel = true ∧
      (stateMachine channel
        (readEndSwitches pins channel (s.onPress .buttonS5Up))).relayB channel = false ∧
      (stateMachine channel
        (readEndSwitches pins channel (s.onPress .buttonS5Up))).coverIndicatorPins.get channel
        = s.indicatorState.get channel ∧
      (stateMachine channel
        (readEndSwitches pins channel (s.onPress .buttonS5Up))).indicatorState
        = s.indicatorState) ∧
    (i.events = [.press .buttonS5Up] →
      topActive i.pins channel (readJumpers i.pins s) = false →
      (loop i s).coverState.get channel = .OPENING ∧
      (loop i s).relayA channel = true ∧
      (loop i s).relayB channel = false ∧
      ((∀ k, 3 < k → i.timer k = false) →
        (loop i s).coverIndicatorPins.get channel = (loop i s).indicatorState.get channel)) := by
  constructor
  · intro htop
    have hpress : (s.onPress .buttonS5Up).view channel
        = { s.view channel with coverState := .OPENING } := by
      cases channel <;> rfl
    have hv : (stateMachine channel
        (readEndSwitches pins channel (s.onPress .buttonS5Up))).view channel
        = { coverState := .OPENING, relayA := true, relayB := false,
            indicator := s.indicatorState.get channel } := by
      rw [stateMachine_view_self, readEndSwitches_view_self, readEndSwitches_indicatorState,
        hpress]
      exact opening_view _ _ _ _ _ htop
    refine ⟨congrArg ChannelView.coverState hv, congrArg ChannelView.relayA hv,
      congrArg ChannelView.relayB hv, congrArg ChannelView.indicator hv, ?_⟩
    rw [stateMachine_indicatorState, readEndSwitches_indicatorState]
    rfl
  · intro hev htop
    obtain ⟨blink, hv⟩ := loop_view_self i s channel
    have hpress : (update i.events
        (interrupt (i.timer 1) (readJumpers i.pins (interrupt (i.timer 0) s)))).view channel
        = { s.view channel with coverState := .OPENING } := by
      rw [hev]
      have h0 : (interrupt (i.timer 1) (readJumpers i.pins (interrupt (i.timer 0) s))).view
          channel = s.view channel := by
        rw [interrupt_view, readJumpers_view, interrupt_view]
      rw [← h0]
      cases channel <;> rfl
    rw [hpress, opening_view _ _ _ _ _ htop] at hv
    refine ⟨congrArg ChannelView.coverState hv, congrArg ChannelView.relayA hv,
      congrArg ChannelView.relayB hv, ?_⟩
    intro hquiet
    obtain ⟨v, hb⟩ := loop_indicator_follows_blink i s channel hquiet
    have hc : (stateMachineView ((loop i s).indicatorState.get channel) v).coverState
        = .OPENING := by
      rw [← hb]
      exact congrArg ChannelView.coverState hv
    have hi := stateMachineView_opening_indicator _ v hc
    rw [← hb] at hi
    exact hi

/-- Example for C13: channel B in `STOP`, normally-open switches, no switch active, the blink
phase high: after a pass of `loop` in which Open is pressed channel B is in `OPENING` with
relay A on, relay B off and the indicator pin high. -/
theorem open_press_whole_cycle_witness :
    (loop cycleOpenPressed stoppedIndicatorHigh).coverState.get .CHANNEL_B = .OPENING ∧
    (loop cycleOpenPressed stoppedIndicatorHigh).relayA .CHANNEL_B = true ∧
    (loop cycleOpenPressed stoppedIndicatorHigh).relayB .CHANNEL_B = false ∧
    (loop cycleOpenPressed stoppedIndicatorHigh).coverIndicatorPins.get .CHANNEL_B
      = (loop cycleOpenPressed stoppedIndicatorHigh).indicatorState.get .CHANNEL_B ∧
    (loop cycleOpenPressed stoppedIndicatorHigh).indicatorState.get .CHANNEL_B = true :=
  have h := (open_press_whole_cycle pinsNoSwitchActive cycleOpenPressed stoppedIndicatorHigh
    .CHANNEL_B).2 rfl (by decide)
  ⟨h.1, h.2.1, h.2.2.1,
    h.2.2.2 (fun k hk => by
      show (k == 3) = false
      exact beq_false_of_ne (Nat.ne_of_gt hk)),
    by decide⟩

/-- C14: for a channel in `OPEN` with relays off, `lastGateState` `OPEN`, top switch active
and bottom switch inactive, a press of Open followed by `readEndSwitches`, `stateMachine` and
`serialPrinting` of the channel ends in `OPEN`, both relays are off after each of the four
calls, and no line is printed; the same for a press of Close on a channel in `CLOSED` with
the bottom switch active and the top switch inactive. -/
theorem command_at_end_position_is_noop (pins : InputPin → Bool) (channel : MOTOR_CHANNEL)
    (s : State) (hA : s.relayA channel = false) (hB : s.relayB channel = false) :
    (s.coverState.get channel = .OPEN → s.lastGateState.get channel = .OPEN →
      topActive pins channel s = true → bottomActive pins channel s = false →
      (serialPrinting channel (stateMachine channel
        (readEndSwitches pins channel (s.onPress .buttonS5Up)))).coverState.get channel
        = s.coverState.get channel ∧
      (s.onPress .buttonS5Up).relayA channel = false ∧
      (s.onPress .buttonS5Up).relayB channel = false ∧
      (readEndSwitches pins channel (s.onPress .buttonS5Up)).relayA channel = false ∧
      (readEndSwitches pins channel (s.onPress .buttonS5Up)).relayB channel = false ∧
      (stateMachine channel
        (readEndSwitches pins channel (s.onPress .buttonS5Up))).relayA channel = false ∧
      (stateMachine channel
        (readEndSwitches pins channel (s.onPress .buttonS5Up))).relayB channel = false ∧
      (serialPrinting channel (stateMachine channel
        (readEndSwitches pins channel (s.onPress .buttonS5Up)))).relayA channel = false ∧
      (serialPrinting channel (stateMachine channel
        (readEndSwitches pins channel (s.onPress .buttonS5Up)))).relayB channel = false ∧
      (serialPrinting channel (stateMachine channel
        (readEndSwitches pins channel (s.onPress .buttonS5Up)))).Serial = s.Serial) ∧
    (s.coverState.get channel = .CLOSED → s.lastGateState.get channel = .CLOSED →
      topActive pins channel s = false → bottomActive pins channel s = true →
      (serialPrinting channel (stateMachine channel
        (readEndSwitches pins channel (s.onPress .buttonS6Down)))).coverState.get channel
        = s.coverState.get channel ∧
      (s.onPress .buttonS6Down).relayA channel = false ∧
      (s.onPress .buttonS6Down).relayB channel = false ∧
      (readEndSwitches pins channel (s.onPress .buttonS6Down)).relayA channel = false ∧
      (readEndSwitches pins channel (s.onPress .buttonS6Down)).relayB channel = false ∧
      (stateMachine channel
        (readEndSwitches pins channel (s.onPress .buttonS6Down))).relayA channel = false ∧
      (stateMachine channel
        (readEndSwitches pins channel (s.onPress .buttonS6Down))).relayB channel = false ∧
      (serialPrinting channel (stateMachine channel
        (readEndSwitches pins channel (s.onPress .buttonS6Down)))).relayA channel = false ∧
      (serialPrinting channel (stateMachine channel
        (readEndSwitches pins channel (s.onPress .buttonS6Down)))).relayB channel = false ∧
      (serialPrinting channel (stateMachine channel
        (readEndSwitches pins channel (s.onPress .buttonS6Down)))).Serial = s.Serial) := by
  constructor
  · intro hstate hlast htop hbottom
    obtain ⟨h1a, h1b, h2a, h2b, h3, h4, hser⟩ :=
      press_at_end_position pins channel s .buttonS5Up .OPENING .OPEN
        (by cases channel <;> rfl) (endSwitchView_top_reached _ _ _ _ htop hbottom)
        (Or.inl rfl) hlast hA hB
    rw [h4, hstate]
    exact ⟨congrArg ChannelView.coverState h3, h1a, h1b, h2a, h2b,
      congrArg ChannelView.relayA h3, congrArg ChannelView.relayB h3,
      congrArg ChannelView.relayA h3, congrArg ChannelView.relayB h3, hser⟩
  · intro hstate hlast htop hbottom
    obtain ⟨h1a, h1b, h2a, h2b, h3, h4, hser⟩ :=
      press_at_end_position pins channel s .buttonS6Down .CLOSING .CLOSED
        (by cases channel <;> rfl) (endSwitchView_bottom_reached _ _ _ _ htop hbottom)
        (Or.inr rfl) hlast hA hB
    rw [h4, hstate]
    exact ⟨congrArg ChannelView.coverState h3, h1a, h1b, h2a, h2b,
      congrArg ChannelView.relayA h3, congrArg ChannelView.relayB h3,
      congrArg ChannelView.relayA h3, congrArg ChannelView.relayB h3, hser⟩

/-- Example for C14: channel A at rest in `OPEN` with its top switch active, Open pressed;
channel A at rest in `CLOSED` with its bottom switch active, Close pressed. The state and
the serial port end as they were. -/
theorem command_at_end_position_is_noop_witness :
    (serialPrinting .CHANNEL_A (stateMachine .CHANNEL_A
      (readEndSwitches pinsTopActiveA .CHANNEL_A
        (openA.onPress .buttonS5Up)))).coverState.get .CHANNEL_A = .OPEN ∧
    (serialPrinting .CHANNEL_A (stateMachine .CHANNEL_A
      (readEndSwitches pinsTopActiveA .CHANNEL_A
        (openA.onPress .buttonS5Up)))).Serial = openA.Serial ∧
    (serialPrinting .CHANNEL_A (stateMachine .CHANNEL_A
      (readEndSwitches pinsBottomActiveA .CHANNEL_A
        (closedA.onPress .buttonS6Down)))).coverState.get .CHANNEL_A = .CLOSED ∧
    (serialPrinting .CHANNEL_A (stateMachine .CHANNEL_A
      (readEndSwitches pinsBottomActiveA .CHANNEL_A
        (closedA.onPress .buttonS6Down)))).Serial = closedA.Serial :=
  have ho := (command_at_end_position_is_noop pinsTopActiveA .CHANNEL_A openA rfl rfl).1
    rfl rfl rfl rfl
  have hc := (command_at_end_position_is_noop pinsBottomActiveA .CHANNEL_A closedA rfl rfl).2
    rfl rfl rfl rfl
  ⟨ho.1, ho.2.2.2.2.2.2.2.2.2, hc.1, hc.2.2.2.2.2.2.2.2.2⟩

/-- C15: `serialPrinting(channel)` prints exactly one line, `Channel <0 or 1>: <name of the
state>`, when `coverState[channel]` differs from `lastGateState[channel]`, and nothing when
they are equal; afterwards `lastGateState[channel]` equals `coverState[channel]`, so a second
call prints nothing. This holds for `serialPrinting` of both program variants. -/
theorem serialPrinting_one_line_per_change (channel : MOTOR_CHANNEL) (s : State) :
    ((s.coverState.get channel ≠ s.lastGateState.get channel →
        (serialPrinting channel s).Serial = s.Serial ++
          ["Channel " ++ channelDigits channel ++ ": " ++ stateName (s.coverState.get channel)]) ∧
      (s.coverState.get channel = s.lastGateState.get channel →
        (serialPrinting channel s).Serial = s.Serial) ∧
      (serialPrinting channel s).lastGateState.get channel = s.coverState.get channel ∧
      (serialPrinting channel s).coverState = s.coverState) ∧
    (serialPrinting channel (serialPrinting channel s)).Serial
      = (serialPrinting channel s).Serial ∧
    ((s.coverState.get channel ≠ s.lastGateState.get channel →
        (SW.serialPrinting channel s).Serial = s.Serial ++
          ["Channel " ++ channelDigits channel ++ ": " ++ stateName (s.coverState.get channel)]) ∧
      (s.coverState.get channel = s.lastGateState.get channel →
        (SW.serialPrinting channel s).Serial = s.Serial) ∧
      (SW.serialPrinting channel s).lastGateState.get channel = s.coverState.get channel ∧
      (SW.serialPrinting channel s).coverState = s.coverState) ∧
    (SW.serialPrinting channel (SW.serialPrinting channel s)).Serial
      = (SW.serialPrinting channel s).Serial ∧
    (stateName .STOP = "STOP" ∧ stateName .OPENING = "OPENING" ∧
      stateName .CLOSING = "CLOSING" ∧ stateName .OPEN = "OPEN" ∧
      stateName .CLOSED = "CLOSED" ∧ stateName .UNKNOWN = "UNKNOWN") ∧
    (channelDigits .CHANNEL_A = "0" ∧ channelDigits .CHANNEL_B = "1") := by
  have h1 := printing_contract (serialPrinting channel) channel s
    (serialPrinting_changed channel s) (serialPrinting_unchanged channel s)
  have h2 := printing_contract (SW.serialPrinting channel) channel s
    (SW.serialPrinting_sw_changed channel s) (SW.serialPrinting_sw_unchanged channel s)
  refine ⟨h1, ?_, h2, ?_, ⟨rfl, rfl, rfl, rfl, rfl, rfl⟩, ⟨rfl, rfl⟩⟩
  · rw [serialPrinting_unchanged channel (serialPrinting channel s)]
    rw [h1.2.2.2, h1.2.2.1]
  · rw [SW.serialPrinting_sw_unchanged channel (SW.serialPrinting channel s)]
    rw [h2.2.2.2, h2.2.2.1]

/-- Example for C15: after an Open press from `setup`, `serialPrinting(CHANNEL_B)` adds the
line `Channel 1: OPENING`, and a second call adds nothing. -/
theorem serialPrinting_one_line_per_change_witness :
    (serialPrinting .CHANNEL_B (setup.onPress .buttonS5Up)).Serial
      = setup.Serial ++ ["Channel 1: OPENING"] ∧
    (serialPrinting .CHANNEL_B
      (serialPrinting .CHANNEL_B (setup.onPress .buttonS5Up))).Serial
      = setup.Serial ++ ["Channel 1: OPENING"] ∧
    (SW.serialPrinting .CHANNEL_B (setup.onPress .buttonS5Up)).Serial
      = setup.Serial ++ ["Channel 1: OPENING"] :=
  have h := serialPrinting_one_line_per_change .CHANNEL_B (setup.onPress .buttonS5Up)
  ⟨h.1.1 (by decide), (h.2.1).trans (h.1.1 (by decide)), h.2.2.1.1 (by decide)⟩

/-- C16: a switch reads active exactly when its level equals `useNCLimitSW[channel]`, so
`readEndSwitches` run with the flag and both levels of the channel inverted finds the same
switches active and produces the same state and relays for the channel. -/
theorem polarity_inversion (pins pins2 : InputPin → Bool) (channel : MOTOR_CHANNEL)
    (s s2 : State)
    (hview : s2.view channel = s.view channel)
    (hflag : s2.useNCLimitSW.get channel = !s.useNCLimitSW.get channel)
    (hup : digitalRead pins2 (coverLimitSwitchPins channel .DIRECTION_UP)
      = !digitalRead pins (coverLimitSwitchPins channel .DIRECTION_UP))
    (hdown : digitalRead pins2 (coverLimitSwitchPins channel .DIRECTION_DOWN)
      = !digitalRead pins (coverLimitSwitchPins channel .DIRECTION_DOWN)) :
    (topActive pins channel s = true ↔
      digitalRead pins (coverLimitSwitchPins channel .DIRECTION_UP)
        = s.useNCLimitSW.get channel) ∧
    (bottomActive pins channel s = true ↔
      digitalRead pins (coverLimitSwitchPins channel .DIRECTION_DOWN)
        = s.useNCLimitSW.get channel) ∧
    topActive pins2 channel s2 = topActive pins channel s ∧
    bottomActive pins2 channel s2 = bottomActive pins channel s ∧
    (readEndSwitches pins2 channel s2).coverState.get channel
      = (readEndSwitches pins channel s).coverState.get channel ∧
    (readEndSwitches pins2 channel s2).relayA channel
      = (readEndSwitches pins channel s).relayA channel ∧
    (readEndSwitches pins2 channel s2).relayB channel
      = (readEndSwitches pins channel s).relayB channel := by
  have hv : (readEndSwitches pins2 channel s2).view channel
      = (readEndSwitches pins channel s).view channel := by
    rw [readEndSwitches_view_self, readEndSwitches_view_self, hview, hflag, hup, hdown]
    exact endSwitchView_inverted _ _ _ _
  refine ⟨?_, ?_, ?_, ?_, congrArg ChannelView.coverState hv, congrArg ChannelView.relayA hv,
    congrArg ChannelView.relayB hv⟩
  · unfold topActive
    exact beq_iff_eq
  · unfold bottomActive
    exact beq_iff_eq
  · unfold topActive
    rw [hflag, hup]
    generalize digitalRead pins (coverLimitSwitchPins channel .DIRECTION_UP) = u
    generalize s.useNCLimitSW.get channel = nc
    cases u <;> cases nc <;> rfl
  · unfold bottomActive
    rw [hflag, hdown]
    generalize digitalRead pins (coverLimitSwitchPins channel .DIRECTION_DOWN) = d
    generalize s.useNCLimitSW.get channel = nc
    cases d <;> cases nc <;> rfl

/-- Example for C16: channel A opening, top switch active. With normally-open switches the
top pin is `LOW`; with normally-closed switches and all levels inverted the result is the
same: `OPEN`. -/
theorem polarity_inversion_witness :
    (readEndSwitches (fun pin => !pinsTopActiveA pin) .CHANNEL_A
        { bothOpening with useNCLimitSW := ⟨true, true⟩ }).coverState.get .CHANNEL_A
      = (readEndSwitches pinsTopActiveA .CHANNEL_A bothOpening).coverState.get .CHANNEL_A ∧
    (readEndSwitches pinsTopActiveA .CHANNEL_A bothOpening).coverState.get .CHANNEL_A
      = .OPEN :=
  ⟨(polarity_inversion pinsTopActiveA (fun pin => !pinsTopActiveA pin) .CHANNEL_A bothOpening
      { bothOpening with useNCLimitSW := ⟨true, true⟩ } rfl rfl rfl rfl).2.2.2.2.1,
    by decide⟩

/-- C17: the timer interrupt handler inverts `indicatorState` of both channels; `readJumpers`,
`onPress`, `onRelease`, `readEndSwitches`, `stateMachine` and `serialPrinting` leave
`indicatorState` as it is; from `setup` the two elements of `indicatorState` are equal after
every sequence of operations and after every sequence of poll cycles; two interrupts in a row
restore `indicatorState`. -/
theorem blink_phase_synchronized (s : State) (pins : InputPin → Bool) (button : Button)
    (channel : MOTOR_CHANNEL) (steps : List Step) (cycles : List LoopInput) :
    (ISR s).indicatorState
      = ⟨!s.indicatorState.get .CHANNEL_A, !s.indicatorState.get .CHANNEL_B⟩ ∧
    (readJumpers pins s).indicatorState = s.indicatorState ∧
    (s.onPress button).indicatorState = s.indicatorState ∧
    (s.onRelease button).indicatorState = s.indicatorState ∧
    (readEndSwitches pins channel s).indicatorState = s.indicatorState ∧
    (stateMachine channel s).indicatorState = s.indicatorState ∧
    (serialPrinting channel s).indicatorState = s.indicatorState ∧
    setup.indicatorState = ⟨false, false⟩ ∧
    (exec steps setup).indicatorState.get .CHANNEL_A
      = (exec steps setup).indicatorState.get .CHANNEL_B ∧
    (run cycles setup).indicatorState.get .CHANNEL_A
      = (run cycles setup).indicatorState.get .CHANNEL_B ∧
    (ISR (ISR s)).indicatorState = s.indicatorState := by
  refine ⟨rfl, (readJumpers_frame pins s).1, rfl, rfl, readEndSwitches_indicatorState pins channel s,
    stateMachine_indicatorState channel s, serialPrinting_indicatorState channel s, rfl,
    exec_sync steps setup rfl, run_sync cycles setup rfl, ?_⟩
  obtain ⟨⟨bA, bB⟩, hu, hd, nc, r1, r2, r3, r4, cs, last, ip, led, ser⟩ := s
  cases bA <;> cases bB <;> rfl

/-- C18 does not hold for `SW/.../main.cpp`: its `readJumpers` tests `!digitalRead(JUMP_3)`
and `!digitalRead(JUMP_4)`, so each hold flag is the inverse of the level of its jumper, and
with `JUMP_3` and `JUMP_4` at logic 1 both hold flags are false. `readJumpers` of the
polarity-aware variant sets each flag to the level of its jumper, as the comments say. -/
theorem SW_readJumpers_inverts_hold_flags :
    (∀ (pins : InputPin → Bool) (s : State),
      (SW.readJumpers pins s).holdButtonUp = (!digitalRead pins .JUMP_3) ∧
      (SW.readJumpers pins s).holdButtonDown = (!digitalRead pins .JUMP_4)) ∧
    (∀ (pins : InputPin → Bool) (s : State),
      (readJumpers pins s).holdButtonUp = digitalRead pins .JUMP_3 ∧
      (readJumpers pins s).holdButtonDown = digitalRead pins .JUMP_4 ∧
      (readJumpers pins s).useNCLimitSW.get .CHANNEL_A = digitalRead pins .JUMP_1 ∧
      (readJumpers pins s).useNCLimitSW.get .CHANNEL_B = digitalRead pins .JUMP_2) ∧
    digitalRead pinsHoldJumpersHigh .JUMP_3 = true ∧
    digitalRead pinsHoldJumpersHigh .JUMP_4 = true ∧
    (SW.readJumpers pinsHoldJumpersHigh setup).holdButtonUp = false ∧
    (SW.readJumpers pinsHoldJumpersHigh setup).holdButtonDown = false := by
  refine ⟨SW.readJumpers_hold, ?_, rfl, rfl, rfl, rfl⟩
  intro pins s
  obtain ⟨_, hnc, hup, hdown⟩ := readJumpers_frame pins s
  rw [hnc]
  exact ⟨hup, hdown, rfl, rfl⟩

/-- C20: after `readEndSwitches(channel)` and `stateMachine(channel)`, relay A of the channel
is on only if its top switch reads inactive and relay B only if its bottom switch reads
inactive; `readEndSwitches` never leaves the channel in `OPENING` with the top switch active
nor in `CLOSING` with the bottom switch active. The state and the relays before the calls
are arbitrary. -/
theorem never_driven_into_active_switch (pins : InputPin → Bool) (channel : MOTOR_CHANNEL)
    (s : State) :
    ((stateMachine channel (readEndSwitches pins channel s)).relayA channel = true →
      topActive pins channel s = false) ∧
    ((stateMachine channel (readEndSwitches pins channel s)).relayB channel = true →
      bottomActive pins channel s = false) ∧
    ¬((readEndSwitches pins channel s).coverState.get channel = .OPENING ∧
      topActive pins channel s = true) ∧
    ¬((readEndSwitches pins channel s).coverState.get channel = .CLOSING ∧
      bottomActive pins channel s = true) := by
  have h := view_never_into_active_switch
    (digitalRead pins (coverLimitSwitchPins channel .DIRECTION_UP))
    (digitalRead pins (coverLimitSwitchPins channel .DIRECTION_DOWN))
    (s.useNCLimitSW.get channel) ((readEndSwitches pins channel s).indicatorState.get channel)
    (s.view channel)
  rw [← readEndSwitches_view_self, ← stateMachine_view_self] at h
  exact h

/-- Example for C20: channel A opening with no switch active keeps relay A on, and its top
switch reads inactive; channel A closing keeps relay B on, and its bottom switch reads
inactive. -/
theorem never_driven_into_active_switch_witness :
    (stateMachine .CHANNEL_A
      (readEndSwitches pinsNoSwitchActive .CHANNEL_A bothOpening)).relayA .CHANNEL_A = true ∧
    topActive pinsNoSwitchActive .CHANNEL_A bothOpening = false ∧
    (stateMachine .CHANNEL_A
      (readEndSwitches pinsNoSwitchActive .CHANNEL_A
        (bothOpening.onPress .buttonS6Down))).relayB .CHANNEL_A = true ∧
    bottomActive pinsNoSwitchActive .CHANNEL_A (bothOpening.onPress .buttonS6Down) = false :=
  ⟨by decide,
    (never_driven_into_active_switch pinsNoSwitchActive .CHANNEL_A bothOpening).1 (by decide),
    by decide,
    (never_driven_into_active_switch pinsNoSwitchActive .CHANNEL_A
      (bothOpening.onPress .buttonS6Down)).2.1 (by decide)⟩

/-- C21: if `readEndSwitches(channel)` leaves the channel in `OPEN`, its top switch reads
active and its bottom switch inactive; if it leaves the channel in `CLOSED`, its bottom
switch reads active and its top switch inactive. The state before the call, the polarity flag
and the levels are arbitrary. -/
theorem end_position_agrees_with_switches (pins : InputPin → Bool)
    (channel : MOTOR_CHANNEL) (s : State) :
    ((readEndSwitches pins channel s).coverState.get channel = .OPEN →
      topActive pins channel s = true ∧ bottomActive pins channel s = false) ∧
    ((readEndSwitches pins channel s).coverState.get channel = .CLOSED →
      bottomActive pins channel s = true ∧ topActive pins channel s = false) := by
  rw [readEndSwitches_coverState_self]
  unfold topActive bottomActive
  generalize digitalRead pins (coverLimitSwitchPins channel .DIRECTION_UP) = u
  generalize digitalRead pins (coverLimitSwitchPins channel .DIRECTION_DOWN) = d
  generalize s.useNCLimitSW.get channel = nc
  generalize s.coverState.get channel = c
  cases u <;> cases d <;> cases nc <;> cases c <;> decide

/-- Example for C21: channel A opening reaches its top switch and is left in `OPEN`, the top
switch reading active and the bottom one inactive; channel A in `OPEN` with only the bottom
switch active is left in `CLOSED`. -/
theorem end_position_agrees_with_switches_witness :
    (readEndSwitches pinsTopActiveA .CHANNEL_A bothOpening).coverState.get .CHANNEL_A
      = .OPEN ∧
    (topActive pinsTopActiveA .CHANNEL_A bothOpening = true ∧
      bottomActive pinsTopActiveA .CHANNEL_A bothOpening = false) ∧
    (readEndSwitches pinsBottomActiveA .CHANNEL_A openA).coverState.get .CHANNEL_A
      = .CLOSED ∧
    (bottomActive pinsBottomActiveA .CHANNEL_A openA = true ∧
      topActive pinsBottomActiveA .CHANNEL_A openA = false) :=
  ⟨by decide,
    (end_position_agrees_with_switches pinsTopActiveA .CHANNEL_A bothOpening).1 (by decide),
    by decide,
    (end_position_agrees_with_switches pinsBottomActiveA .CHANNEL_A openA).2 (by decide)⟩

/-- C22: with `useNCLimitSW[channel]` false, `readEndSwitches` of `SW/.../main.cpp` leaves
the same array `coverState` and makes the same relay calls, through the relay handles of the
same channel and index, as `readEndSwitches` of the polarity-aware variant; and the state the
latter leaves is the state before with these calls carried out on its relays and with that
array. -/
theorem SW_readEndSwitches_is_the_NO_case (pins : InputPin → Bool)
    (channel : MOTOR_CHANNEL) (s : State) (hNO : s.useNCLimitSW.get channel = false) :
    (SW.readEndSwitches pins channel s.coverState).1
      = (readEndSwitches pins channel s).coverState ∧
    (SW.readEndSwitches pins channel s.coverState).2
      = readEndSwitchesCommands pins channel s ∧
    readEndSwitches pins channel s
      = { (SW.readEndSwitches pins channel s.coverState).2.foldl State.command s with
          coverState := (SW.readEndSwitches pins channel s.coverState).1 } := by
  obtain ⟨h1, h2, h3⟩ := readEndSwitches_sw_NO_case pins channel s hNO
  refine ⟨h1, h2, ?_⟩
  rw [h2]
  exact h3

/-- Example for C22: channel A opening, both of its switch pins `LOW`: both variants leave
channel A in `UNKNOWN` and call `off()` through the two relay handles of channel A. -/
theorem SW_readEndSwitches_is_the_NO_case_witness :
    (SW.readEndSwitches pinsAllLow .CHANNEL_A bothOpening.coverState).1
      = (readEndSwitches pinsAllLow .CHANNEL_A bothOpening).coverState ∧
    (readEndSwitches pinsAllLow .CHANNEL_A bothOpening).coverState = ⟨.UNKNOWN, .OPENING⟩ ∧
    (SW.readEndSwitches pinsAllLow .CHANNEL_A bothOpening.coverState).2
      = readEndSwitchesCommands pinsAllLow .CHANNEL_A bothOpening ∧
    readEndSwitchesCommands pinsAllLow .CHANNEL_A bothOpening
      = [⟨⟨.CHANNEL_A, 0⟩, false⟩, ⟨⟨.CHANNEL_A, 1⟩, false⟩] :=
  have h := SW_readEndSwitches_is_the_NO_case pinsAllLow .CHANNEL_A bothOpening rfl
  ⟨h.1, by decide, h.2.1, by decide⟩

/-- C23 holds for the polarity-aware variant and not for `SW/.../main.cpp`. In the first,
`setup` binds `relay1` .. `relay4` to four relay objects on the pins `PIN_RELAY_M1A`,
`PIN_RELAY_M1B`, `PIN_RELAY_M2A`, `PIN_RELAY_M2B`, all off, and every relay call of
`stopCover`, `openCover` and `closeCover` reaches one of them. In `SW/.../main.cpp` the four
assignments of `setup` store into `relay1`, `relay2`, `relay1`, `relay2`: `relay1` and
`relay2` end on the objects for `PIN_RELAY_M2A` and `PIN_RELAY_M2B`, `relay3` and `relay4`
stay null, so `relay3->off()` in `setup` goes through a null pointer; the four elements of
`coverRelays` are null, so no relay call of `stopCover`, `openCover` or `closeCover` reaches
a relay. -/
theorem relay_binding_at_startup :
    (∀ initial : Bool, ∃ m, setupRelays initial = some m ∧
      relayAt m.relay1 m.objects = some ⟨PIN_RELAY_M1A, false, false⟩ ∧
      relayAt m.relay2 m.objects = some ⟨PIN_RELAY_M1B, false, false⟩ ∧
      relayAt m.relay3 m.objects = some ⟨PIN_RELAY_M2A, false, false⟩ ∧
      relayAt m.relay4 m.objects = some ⟨PIN_RELAY_M2B, false, false⟩ ∧
      [m.relay1, m.relay2, m.relay3, m.relay4].Nodup ∧
      (∀ c : RelayCommand, m.command c ≠ none) ∧
      (relayAt m.relay1 m.objects).map SimpleRelay.isOn = some setup.relay1 ∧
      (relayAt m.relay2 m.objects).map SimpleRelay.isOn = some setup.relay2 ∧
      (relayAt m.relay3 m.objects).map SimpleRelay.isOn = some setup.relay3 ∧
      (relayAt m.relay4 m.objects).map SimpleRelay.isOn = some setup.relay4) ∧
    (∀ (channel : MOTOR_CHANNEL) (s : State),
      stopCover channel s = (stopCoverCommands channel).foldl State.command s ∧
      openCover channel s = (openCoverCommands channel).foldl State.command s ∧
      closeCover channel s = (closeCoverCommands channel).foldl State.command s) ∧
    (∀ initial : Bool,
      relayAt (SW.setupCreateRelays initial SW.staticInitialization).relay1
          (SW.setupCreateRelays initial SW.staticInitialization).objects
        = some ⟨PIN_RELAY_M2A, true, initial⟩ ∧
      relayAt (SW.setupCreateRelays initial SW.staticInitialization).relay2
          (SW.setupCreateRelays initial SW.staticInitialization).objects
        = some ⟨PIN_RELAY_M2B, true, initial⟩ ∧
      (SW.setupCreateRelays initial SW.staticInitialization).relay3 = none ∧
      (SW.setupCreateRelays initial SW.staticInitialization).relay4 = none ∧
      (SW.setupCreateRelays initial SW.staticInitialization).coverRelays
        = ⟨(none, none), (none, none)⟩ ∧
      SW.setupRelays initial = none ∧
      (∀ c : RelayCommand,
        (SW.setupCreateRelays initial SW.staticInitialization).command c = none)) := by
  refine ⟨?_, ?_, ?_⟩
  · intro initial
    refine ⟨_, setupRelays_value initial, rfl, rfl, rfl, rfl, by decide, ?_, rfl, rfl, rfl, rfl⟩
    rintro ⟨⟨channel, index⟩, switchOn⟩
    cases channel <;> cases switchOn <;>
      first
        | (have h0 : index = 0 ∨ index = 1 := by omega
           rcases h0 with h0 | h0 <;> subst h0 <;> decide)
  · intro channel s
    obtain ⟨h1, h2, h3, _⟩ := cover_commands_agree channel s
    exact ⟨h1, h2, h3⟩
  · intro initial
    rw [SW.setupCreateRelays_value]
    refine ⟨rfl, rfl, rfl, rfl, rfl, ?_, ?_⟩
    · cases initial <;> rfl
    · rintro ⟨⟨channel, index⟩, switchOn⟩
      have h0 : index = 0 ∨ index = 1 := by omega
      cases channel <;> rcases h0 with h0 | h0 <;> subst h0 <;> rfl

end AMPTR
